import Mathlib

/-!
Verification development for the `logicall-ai` voice-agent configuration engine.

This file shallowly embeds the Python source under `src/`:
  - `src/tools.py`      — built-in tools, HTTP tool validation and execution
  - `src/profile_resolver.py` — profile resolution and the tagged-value decoder
  - `src/session_builder.py`  — model-id normalization, constructor adaptation
  - `src/agent.py`      — the per-session usage-limit enforcer
  - `src/config.py`     — configuration dataclasses and the built-in default profile

Python strings are modelled as `List Char`; Python's dynamic values as the
inductive `PyVal`; Python exceptions as an explicit `Except PyErr` channel.
Store (DynamoDB) reads are modelled as oracle inputs: each code path that
performs a `get_item` takes the store's response as an explicit argument.
Loops without a structural measure in the source (`while True` retry loops,
recursion over dynamically-typed nested values) are modelled with an explicit
fuel argument; theorems establish that the fuel bound used by the wrapper
definitions always suffices, i.e. that the source loops terminate.
-/

/-- Python `str` values, modelled as their character sequences. -/
abbrev PyStr := List Char

/-- Embed a Lean string literal as a `PyStr`. -/
def pys (s : String) : PyStr := s.data

/-- Python runtime exceptions that the modelled code can raise or catch.
`jsonDecodeError` models `json.JSONDecodeError` (a `ValueError` subclass);
it is kept separate because the source only ever catches it with a dedicated
`except json.JSONDecodeError` clause. -/
inductive PyErr where
  | typeError (msg : PyStr)
  | valueError (msg : PyStr)
  | attributeError (msg : PyStr)
  | otherError (msg : PyStr)
deriving DecidableEq

/-- Python values as produced by JSON decoding, the DynamoDB tagged-value
decoders, and tool-call arguments.  A Python `float` is represented by the
literal string it was parsed from (`vfloat s` is the value `float(s)`);
no claim in this development compares or computes with float magnitudes,
only with which branch (int / float / str) the decoders take. -/
inductive PyVal where
  | vstr (s : PyStr)
  | vint (n : Int)
  | vfloat (s : PyStr)
  | vbool (b : Bool)
  | vnone
  | vlist (xs : List PyVal)
  | vdict (kvs : List (PyStr × PyVal))

/-- A Python `dict` with string keys (the shape of decoded store items). -/
abbrev PyDict := List (PyStr × PyVal)

/-- Python `dict.get(k)`: first binding of `k` (keys are unique in source
dicts, so first-match lookup agrees with Python's lookup). -/
def dictGet (d : PyDict) (k : PyStr) : Option PyVal :=
  (d.find? (fun p => p.1 = k)).map Prod.snd

/-- Python `d.get(k, default)`. -/
def dictGetD (d : PyDict) (k : PyStr) (dflt : PyVal) : PyVal :=
  (dictGet d k).getD dflt

/-- Python `d.setdefault(k, v)` (returns the updated dict). -/
def dictSetDefault (d : PyDict) (k : PyStr) (v : PyVal) : PyDict :=
  if (dictGet d k).isSome then d else d ++ [(k, v)]

/-- Python truthiness for the modelled value universe. -/
def pyTruthy : PyVal → Bool
  | .vstr s => !s.isEmpty
  | .vint n => n ≠ 0
  | .vfloat s => s ≠ pys "0" ∧ s ≠ pys "0.0"
  | .vbool b => b
  | .vnone => false
  | .vlist xs => !xs.isEmpty
  | .vdict kvs => !kvs.isEmpty

/-! ### `src/tools.py` — the built-in `wait` tool (`_wait`, lines 32–38) -/

/-- `clamped = max(0, min(int(seconds), 30))` for an integer argument. -/
def waitClamped (seconds : Int) : Int := max 0 (min seconds 30)

/-- Seconds actually slept by `_wait`: `asyncio.sleep(clamped)` is only
invoked when `clamped > 0`, so the slept duration is `clamped` in every
case (sleeping zero seconds and not sleeping are both zero). -/
def waitSleepSeconds (seconds : Int) : Int :=
  if waitClamped seconds > 0 then waitClamped seconds else 0

/-- The string `_wait` returns: `f"Waited {clamped} second(s)"`. -/
def waitMessage (seconds : Int) : PyStr :=
  pys "Waited " ++ (toString (waitClamped seconds)).data ++ pys " second(s)"

/-! ### `src/session_builder.py` — `_normalize_provider_model_id` (421–430)
and the model-string build `f"{provider}/{model_id}"` used by
`_resolve_llm_model` / `_resolve_stt_model` / `_resolve_tts_model`. -/

/-- `_normalize_provider_model_id(model_id, provider)`. -/
def normalizeProviderModelId (modelId provider : PyStr) : PyStr :=
  if (provider ++ [Char.ofNat 45]).isPrefixOf modelId then
    modelId.drop (provider ++ [Char.ofNat 45]).length
  else if (provider ++ [Char.ofNat 47]).isPrefixOf modelId then
    modelId.drop (provider ++ [Char.ofNat 47]).length
  else modelId

/-- `model_string = f"{provider}/{model_id}"` with the normalized id,
as built in `_resolve_llm_model` (session_builder.py lines 307–308). -/
def buildModelString (provider modelId : PyStr) : PyStr :=
  provider ++ [Char.ofNat 47] ++ normalizeProviderModelId modelId provider

/-! ### `src/agent.py` — session limit enforcer (lines 158–221) -/

/-- Numeric limit values as read from `profile.limits` by the enforcer
(`max_minutes` is handled by a separate timer task and is not part of the
tool-call event handler modelled here). -/
structure LimitsNum where
  maxToolCalls : Option ℚ
  maxToolCallsPerMinute : Option ℚ
deriving DecidableEq

/-- `limit_state` as initialised in `my_agent` (agent.py lines 160–164). -/
structure LimitState where
  triggered : Bool
  toolCallsTotal : Nat
  toolCallTimestamps : List ℚ
deriving DecidableEq

def initialLimitState : LimitState := ⟨false, 0, []⟩

/-- `_trigger_shutdown` (agent.py lines 166–171): returns the new state and
whether `session.shutdown(drain=True)` was issued by this call. -/
def triggerShutdown (st : LimitState) : LimitState × Bool :=
  if st.triggered then (st, false)
  else ({ st with triggered := true }, true)

/-- The eviction loop
`while timestamps and timestamps[0] < one_minute_ago: timestamps.popleft()`. -/
def evictOldTimestamps (now : ℚ) (ts : List ℚ) : List ℚ :=
  ts.dropWhile (fun t => t < now - 60)

/-- `_on_function_tools_executed` (agent.py lines 186–220) for one event
carrying `callCount` function calls observed at time `now`.  Returns the new
state and whether a shutdown was issued while handling this event. -/
def onFunctionToolsExecuted (limits : LimitsNum) (st : LimitState)
    (now : ℚ) (callCount : Nat) : LimitState × Bool :=
  if callCount = 0 then (st, false)
  else
    let total := st.toolCallsTotal + callCount
    let ts := evictOldTimestamps now
      (st.toolCallTimestamps ++ List.replicate callCount now)
    let st1 : LimitState := ⟨st.triggered, total, ts⟩
    let overTotal :=
      match limits.maxToolCalls with
      | some m => ((total : ℚ) > m : Bool)
      | none => false
    if overTotal then triggerShutdown st1
    else
      let overRate :=
        match limits.maxToolCallsPerMinute with
        | some m => ((ts.length : ℚ) > m : Bool)
        | none => false
      if overRate then triggerShutdown st1 else (st1, false)

/-- Fold the handler over a sequence of `(time, batch size)` events,
counting how many shutdowns were issued. -/
def runLimitEvents (limits : LimitsNum) (st : LimitState) :
    List (ℚ × Nat) → LimitState × Nat
  | [] => (st, 0)
  | (now, c) :: rest =>
      let r1 := onFunctionToolsExecuted limits st now c
      let r2 := runLimitEvents limits r1.1 rest
      (r2.1, (if r1.2 then 1 else 0) + r2.2)

/-- The profile limit `max_tool_calls_per_minute = 10` with no total cap. -/
def rateLimit10 : LimitsNum := ⟨none, some 10⟩

/-- Eleven single-call tool-execution events at seconds 0,1,…,10 — all
within one 60-second window. -/
def elevenCalls : List (ℚ × Nat) :=
  [(0, 1), (1, 1), (2, 1), (3, 1), (4, 1), (5, 1),
   (6, 1), (7, 1), (8, 1), (9, 1), (10, 1)]

/-! ### `src/session_builder.py` — `_construct_with_supported_kwargs` (45–103) -/

/-- The literal part of the pattern
`r"unexpected keyword argument '([^']+)'"` searched in `TypeError` text. -/
def unexpectedKwPattern : PyStr := pys "unexpected keyword argument '"

/-- `re.search(r"unexpected keyword argument '([^']+)'", msg)`: scan left to
right; at the first position where the literal part matches and a nonempty
quote-terminated capture follows, return the capture. -/
def findUnexpectedKw : PyStr → Option PyStr
  | [] => none
  | c :: cs =>
      if unexpectedKwPattern.isPrefixOf (c :: cs) then
        let rest := (c :: cs).drop unexpectedKwPattern.length
        let cap := rest.takeWhile (fun ch => ch ≠ '\'')
        if cap ≠ [] ∧ cap.length < rest.length then some cap
        else findUnexpectedKw cs
      else findUnexpectedKw cs

/-- Result of `inspect.signature(factory)`: `none` models the
`TypeError`/`ValueError` case (signature not introspectable, swallowed by
the source); otherwise whether a `**kwargs` parameter exists, and the
declared parameter names. -/
structure PySig where
  varKeyword : Bool
  params : List PyStr

/-- Keyword arguments passed to a factory (dict with unique keys). -/
abbrev Kwargs (V : Type) := List (PyStr × V)

/-- The static filtering phase of `_construct_with_supported_kwargs`
(lines 59–79): drop keys absent from the signature unless `**kwargs`
is accepted or the signature is not introspectable. -/
def filterBySig {V : Type} (sig : Option PySig) (kw : Kwargs V) : Kwargs V :=
  match sig with
  | none => kw
  | some s => if s.varKeyword then kw else kw.filter (fun p => p.1 ∈ s.params)

/-- Outcome of one iteration of the `while True` retry loop: either the loop
exits (returning a value or re-raising an exception), or it removes the cited
kwarg and retries with the smaller kwarg dict. -/
inductive RetryStep (V R : Type) where
  | done (res : Except PyErr R)
  | again (kw2 : Kwargs V) (msg : PyStr)

/-- One iteration of the `while True` loop body of
`_construct_with_supported_kwargs` (lines 82–103): try the factory; on a
`TypeError` citing `unexpected keyword argument 'X'` with `X` still present,
pop exactly `X` and retry unless the dict became empty (in which case the
current error is re-raised); any other failure is re-raised.  The factory's
behaviour is an arbitrary function from the supplied kwargs to a result or a
raised exception. -/
def constructRetryStep {V R : Type} (factory : Kwargs V → Except PyErr R)
    (kw : Kwargs V) : RetryStep V R :=
  match factory kw with
  | .ok r => .done (.ok r)
  | .error e =>
      match e with
      | .typeError msg =>
          match findUnexpectedKw msg with
          | none => .done (.error (.typeError msg))
          | some bad =>
              if bad ∈ kw.map Prod.fst then
                if (kw.filter (fun p => p.1 ≠ bad)).isEmpty then
                  .done (.error (.typeError msg))
                else .again (kw.filter (fun p => p.1 ≠ bad)) msg
              else .done (.error (.typeError msg))
      | e => .done (.error e)

/-- The `while True` retry loop, with explicit fuel; `none` models
non-termination of the source loop. -/
def constructRetryLoop {V R : Type} (factory : Kwargs V → Except PyErr R) :
    Nat → Kwargs V → Option (Except PyErr R)
  | 0, _ => none
  | fuel + 1, kw =>
      match constructRetryStep factory kw with
      | .done res => some res
      | .again kw2 _ => constructRetryLoop factory fuel kw2

/-- `_construct_with_supported_kwargs`: signature filtering followed by the
retry loop, run with fuel one more than the number of remaining kwargs
(the termination theorem shows this fuel always suffices). -/
def constructWithSupportedKwargs {V R : Type} (sig : Option PySig)
    (factory : Kwargs V → Except PyErr R) (kw : Kwargs V) :
    Option (Except PyErr R) :=
  constructRetryLoop factory ((filterBySig sig kw).length + 1) (filterBySig sig kw)

/-! ### Python string and number parsing

Models of the CPython primitives `int(str)` and `float(str)` used by the
tagged-value decoders: optional surrounding whitespace, an optional sign,
digit runs that may contain single underscores between digits, and (for
floats) an optional fractional part, exponent, or the literals
`inf`/`infinity`/`nan`. -/

def isPyWs (c : Char) : Bool :=
  c = ' ' || c = '\t' || c = '\n' || c = '\r' || c = Char.ofNat 11 || c = Char.ofNat 12

def stripWs (s : PyStr) : PyStr :=
  ((s.dropWhile isPyWs).reverse.dropWhile isPyWs).reverse

/-- Digit run continuation: digits with single underscores between digits. -/
def digitsUAux : PyStr → Bool
  | [] => true
  | '_' :: c :: rest => c.isDigit && digitsUAux rest
  | c :: rest => c.isDigit && digitsUAux rest

/-- A nonempty digit run, underscores allowed only between digits. -/
def digitsU : PyStr → Bool
  | [] => false
  | c :: rest => c.isDigit && digitsUAux rest

/-- Numeric value of a digit run (underscores skipped). -/
def digitsVal (s : PyStr) : Nat :=
  (s.filter (fun c => c ≠ '_')).foldl (fun acc c => acc * 10 + (c.toNat - 48)) 0

/-- CPython `int(s)` for base 10: `some n` on success, `none` for
`ValueError`. -/
def pyIntParse (s : PyStr) : Option Int :=
  let t := stripWs s
  match t with
  | '+' :: rest => if digitsU rest then some (digitsVal rest : Int) else none
  | '-' :: rest => if digitsU rest then some (-(digitsVal rest : Int)) else none
  | _ => if digitsU t then some (digitsVal t : Int) else none

/-- Drop one leading sign character. -/
def signSplit (s : PyStr) : PyStr :=
  match s with
  | '+' :: r => r
  | '-' :: r => r
  | _ => s

/-- Split a float literal at the first `e`/`E` into mantissa and exponent. -/
def expSplit (s : PyStr) : PyStr × Option PyStr :=
  let m := s.takeWhile (fun c => c ≠ 'e' ∧ c ≠ 'E')
  if m.length = s.length then (m, none) else (m, some (s.drop (m.length + 1)))

/-- Mantissa of a float literal: digits, or digits-dot-digits with at most
one dot and at least one digit overall. -/
def mantissaOk (m : PyStr) : Bool :=
  let a := m.takeWhile (fun c => c ≠ Char.ofNat 46)
  if a.length = m.length then digitsU m
  else
    let b := m.drop (a.length + 1)
    (!(b.any (fun c => c = Char.ofNat 46))) &&
      (digitsU a || a.isEmpty) && (digitsU b || b.isEmpty) &&
      !(a.isEmpty && b.isEmpty)

/-- Whether CPython `float(s)` succeeds. -/
def pyFloatParses (s : PyStr) : Bool :=
  let t := signSplit (stripWs s)
  let tl := t.map Char.toLower
  if tl = pys "inf" || tl = pys "infinity" || tl = pys "nan" then true
  else
    match expSplit t with
    | (m, none) => mantissaOk m
    | (m, some ex) => mantissaOk m && digitsU (signSplit ex)

/-- The shared numeric branch of the tagged-value decoders:
`float(num_str) if "." in num_str else int(num_str)` wrapped in
`try: ... except ValueError: result = num_str`. -/
def decodeNumStr (s : PyStr) : PyVal :=
  if s.any (fun c => c = Char.ofNat 46) then
    if pyFloatParses s then .vfloat s else .vstr s
  else
    match pyIntParse s with
    | some n => .vint n
    | none => .vstr s

/-- The unguarded numeric conversion used for list elements in
`tools._dynamodb_item_to_dict` and for `NS` elements in the
profile/session decoders: `float(n) if "." in n else int(n)` with no
`try`, so a parse failure raises `ValueError` and a non-string raises
`TypeError`. -/
def decodeNumStrStrict (n : PyVal) : Except PyErr PyVal :=
  match n with
  | .vstr s =>
      if s.any (fun c => c = Char.ofNat 46) then
        if pyFloatParses s then .ok (.vfloat s)
        else .error (.valueError (pys "could not convert string to float"))
      else
        match pyIntParse s with
        | some k => .ok (.vint k)
        | none => .error (.valueError (pys "invalid literal for int"))
  | _ => .error (.typeError (pys "argument of type is not iterable"))

/-! ### Python container primitives -/

/-- Substring test (Python `needle in haystack` for two strings). -/
def strHasSub (needle : PyStr) : PyStr → Bool
  | [] => needle.isEmpty
  | c :: cs => needle.isPrefixOf (c :: cs) || strHasSub needle cs

/-- Python `needle in container` for a string needle: key membership for
dicts, substring for strings, element equality for lists, `TypeError`
otherwise. -/
def pyInE (needle : PyStr) (v : PyVal) : Except PyErr Bool :=
  match v with
  | .vdict kvs => .ok (kvs.any (fun p => p.1 = needle))
  | .vstr s => .ok (strHasSub needle s)
  | .vlist xs =>
      .ok (xs.any (fun x => match x with | .vstr t => t = needle | _ => false))
  | _ => .error (.typeError (pys "argument is not iterable"))

/-- Python `container[k]` for a string key. -/
def pySubE (v : PyVal) (k : PyStr) : Except PyErr PyVal :=
  match v with
  | .vdict kvs =>
      match dictGet kvs k with
      | some x => .ok x
      | none => .error (.otherError (pys "KeyError"))
  | _ => .error (.typeError (pys "object is not subscriptable"))

/-- Python iteration `for x in v`: list elements, string characters (as
one-character strings), dict keys; `TypeError` otherwise. -/
def pyIterE (v : PyVal) : Except PyErr (List PyVal) :=
  match v with
  | .vlist xs => .ok xs
  | .vstr s => .ok (s.map (fun c => .vstr [c]))
  | .vdict kvs => .ok (kvs.map (fun p => .vstr p.1))
  | _ => .error (.typeError (pys "object is not iterable"))

/-- Lift a plain `Except` computation into the fueled decoder monad. -/
def liftE {α : Type} (x : Except PyErr α) : ExceptT PyErr Option α :=
  ExceptT.mk (some x)

/-- Map a fallible decoder over a dict's values, keeping keys. -/
def decodeEntriesWith (f : PyVal → ExceptT PyErr Option PyVal) :
    PyDict → ExceptT PyErr Option PyDict
  | [] => pure []
  | (k, v) :: rest => do
      let w ← f v
      let ws ← decodeEntriesWith f rest
      pure ((k, w) :: ws)

/-- Map a fallible decoder over a list. -/
def decodeListWith (f : PyVal → ExceptT PyErr Option PyVal) :
    List PyVal → ExceptT PyErr Option (List PyVal)
  | [] => pure []
  | v :: rest => do
      let w ← f v
      let ws ← decodeListWith f rest
      pure (w :: ws)

/-! ### The two DynamoDB tagged-value decoders

`tools._dynamodb_item_to_dict` (tools.py 135–171) and
`profile_resolver._dynamodb_item_to_dict` (profile_resolver.py 216–258;
byte-for-byte repeated in session_builder.py 114–156) differ in their `L`
handling, their fallback branch, and the `NS` branch (profile only).
The `Nat` argument is recursion fuel standing in for Python's call stack
(`ExceptT.mk none` = stack exhaustion, unreachable from the wrappers below,
which pass the value's `sizeOf`). -/

/-- The per-value branch dispatch of the numeric `N` branch shared by both
decoders: `try: float/int except ValueError: keep the raw string`; a
non-string tag value raises `TypeError` (uncaught — `except ValueError`
does not catch it). -/
def decodeNTagged (n : PyVal) : Except PyErr PyVal :=
  match n with
  | .vstr s => .ok (decodeNumStr s)
  | _ => .error (.typeError (pys "argument of type is not iterable"))

/-- The `v.get("S") or v.get("N") or v.get("BOOL") or None` chain used for
non-`M` list elements by the profile/session decoder; `AttributeError` when
the element is not a dict. -/
def listElemGetChainP (v : PyVal) : Except PyErr PyVal :=
  match v with
  | .vdict kvs =>
      let s := (dictGet kvs (pys "S")).getD .vnone
      if pyTruthy s then .ok s
      else
        let n := (dictGet kvs (pys "N")).getD .vnone
        if pyTruthy n then .ok n
        else
          let b := (dictGet kvs (pys "BOOL")).getD .vnone
          if pyTruthy b then .ok b else .ok .vnone
  | _ => .error (.attributeError (pys "object has no attribute 'get'"))

/-- Per-descriptor decoding of `profile_resolver._dynamodb_item_to_dict`
(the loop body for one `value`; recursion via the `M`, `L` and item cases).
The final fallback is `str(value)` (profile_resolver.py line 256), modelled
by `pyStrOf` defined below. -/
def ddbDecodeDescP (pyStrOfFn : PyVal → PyStr) : Nat → PyVal → ExceptT PyErr Option PyVal
  | 0, _ => ExceptT.mk none
  | fuel + 1, value => do
      if ← liftE (pyInE (pys "S") value) then
        liftE (pySubE value (pys "S"))
      else if ← liftE (pyInE (pys "N") value) then do
        let n ← liftE (pySubE value (pys "N"))
        liftE (decodeNTagged n)
      else if ← liftE (pyInE (pys "BOOL") value) then
        liftE (pySubE value (pys "BOOL"))
      else if ← liftE (pyInE (pys "NULL") value) then
        pure .vnone
      else if ← liftE (pyInE (pys "M") value) then do
        let m ← liftE (pySubE value (pys "M"))
        match m with
        | .vdict kvs => do
            let d ← decodeEntriesWith (ddbDecodeDescP pyStrOfFn fuel) kvs
            pure (.vdict d)
        | _ => throw (.attributeError (pys "object has no attribute 'items'"))
      else if ← liftE (pyInE (pys "L") value) then do
        let l ← liftE (pySubE value (pys "L"))
        let elems ← liftE (pyIterE l)
        let ws ← decodeListWith
          (fun v => do
            if ← liftE (pyInE (pys "M") v) then ddbDecodeDescP pyStrOfFn fuel v
            else liftE (listElemGetChainP v))
          elems
        pure (.vlist ws)
      else if ← liftE (pyInE (pys "SS") value) then do
        let ss ← liftE (pySubE value (pys "SS"))
        let elems ← liftE (pyIterE ss)
        pure (.vlist elems)
      else if ← liftE (pyInE (pys "NS") value) then do
        let ns ← liftE (pySubE value (pys "NS"))
        let elems ← liftE (pyIterE ns)
        let ws ← decodeListWith (fun n => liftE (decodeNumStrStrict n)) elems
        pure (.vlist ws)
      else
        pure (.vstr (pyStrOfFn value))

/-- Per-descriptor decoding of `tools._dynamodb_item_to_dict` (the loop
body for one `value`).  Differences from the profile version: list
elements are themselves dispatched on `M`/`S`/`N`/`BOOL` (with the `N`
case converting numerics, unguarded), there is no `NS` branch, and the
fallback stores the raw value. -/
def ddbDecodeDescT : Nat → PyVal → ExceptT PyErr Option PyVal
  | 0, _ => ExceptT.mk none
  | fuel + 1, value => do
      if ← liftE (pyInE (pys "S") value) then
        liftE (pySubE value (pys "S"))
      else if ← liftE (pyInE (pys "N") value) then do
        let n ← liftE (pySubE value (pys "N"))
        liftE (decodeNTagged n)
      else if ← liftE (pyInE (pys "BOOL") value) then
        liftE (pySubE value (pys "BOOL"))
      else if ← liftE (pyInE (pys "NULL") value) then
        pure .vnone
      else if ← liftE (pyInE (pys "M") value) then do
        let m ← liftE (pySubE value (pys "M"))
        match m with
        | .vdict kvs => do
            let d ← decodeEntriesWith (ddbDecodeDescT fuel) kvs
            pure (.vdict d)
        | _ => throw (.attributeError (pys "object has no attribute 'items'"))
      else if ← liftE (pyInE (pys "L") value) then do
        let l ← liftE (pySubE value (pys "L"))
        let elems ← liftE (pyIterE l)
        let ws ← decodeListWith
          (fun elem => do
            if ← liftE (pyInE (pys "M") elem) then do
              let m ← liftE (pySubE elem (pys "M"))
              match m with
              | .vdict kvs => do
                  let d ← decodeEntriesWith (ddbDecodeDescT fuel) kvs
                  pure (.vdict d)
              | _ => throw (.attributeError (pys "object has no attribute 'items'"))
            else if ← liftE (pyInE (pys "S") elem) then
              liftE (pySubE elem (pys "S"))
            else if ← liftE (pyInE (pys "N") elem) then do
              let n ← liftE (pySubE elem (pys "N"))
              liftE (decodeNumStrStrict n)
            else if ← liftE (pyInE (pys "BOOL") elem) then
              liftE (pySubE elem (pys "BOOL"))
            else
              pure .vnone)
          elems
        pure (.vlist ws)
      else if ← liftE (pyInE (pys "SS") value) then do
        let ss ← liftE (pySubE value (pys "SS"))
        let elems ← liftE (pyIterE ss)
        pure (.vlist elems)
      else
        pure value

/-- Separator-joined concatenation for `pyReprOfF`. -/
def joinComma : List PyStr → PyStr
  | [] => []
  | [s] => s
  | s :: rest => s ++ pys ", " ++ joinComma rest

/-- CPython `repr` for the modelled value universe (fueled like the
decoders; string-escape details inside quotes are not modelled, and the
repr of a float is taken to be its source literal — no claim observes the
text of a container or float repr). -/
def pyReprOfF : Nat → PyVal → PyStr
  | 0, _ => []
  | fuel + 1, v =>
      match v with
      | .vstr s => '\'' :: (s ++ ['\''])
      | .vint n => (toString n).data
      | .vfloat s => s
      | .vbool true => pys "True"
      | .vbool false => pys "False"
      | .vnone => pys "None"
      | .vlist xs =>
          '[' :: (joinComma (xs.map (pyReprOfF fuel)) ++ [']'])
      | .vdict kvs =>
          Char.ofNat 123 ::
            (joinComma (kvs.map (fun p =>
              pyReprOfF fuel (.vstr p.1) ++ pys ": " ++ pyReprOfF fuel p.2)) ++
              [Char.ofNat 125])

/-- CPython `str(value)` at recursion budget `fuel`: identity on strings,
`repr`-style otherwise. -/
def pyStrOf (fuel : Nat) (v : PyVal) : PyStr :=
  match v with
  | .vstr s => s
  | _ => pyReprOfF fuel v

/-- `profile_resolver._dynamodb_item_to_dict` applied to a whole item:
decode every entry's descriptor value (also the model of the identical
copy in session_builder.py).  `fuel` is the interpreter's recursion budget
(Python enforces `sys.getrecursionlimit()`; exhausting it raises, modelled
by the `getD` error). -/
def ddbItemToDictP (fuel : Nat) (item : PyDict) : Except PyErr PyDict :=
  (decodeEntriesWith (ddbDecodeDescP (pyStrOf fuel) fuel) item).run.getD
    (.error (.otherError (pys "maximum recursion depth exceeded")))

/-- `tools._dynamodb_item_to_dict` applied to a whole item, at recursion
budget `fuel`. -/
def ddbItemToDictT (fuel : Nat) (item : PyDict) : Except PyErr PyDict :=
  (decodeEntriesWith (ddbDecodeDescT fuel) item).run.getD
    (.error (.otherError (pys "maximum recursion depth exceeded")))

/-! ### String, URL and JSON primitives used by the HTTP tool machinery -/

/-- Python `str.upper()` (ASCII). -/
def pyUpper (s : PyStr) : PyStr := s.map Char.toUpper

/-- Python `str.rstrip("/")`. -/
def rstripSlash (s : PyStr) : PyStr :=
  (s.reverse.dropWhile (fun c => c = Char.ofNat 47)).reverse

/-- `urllib.parse.urlparse(url).netloc` for a URL that starts with
`"https://"` (the only case in which the source consults it): the
characters after the scheme separator up to the first `/`, `?` or `#`. -/
def urlparseNetloc (url : PyStr) : PyStr :=
  (url.drop 8).takeWhile
    (fun c => c ≠ Char.ofNat 47 ∧ c ≠ '?' ∧ c ≠ Char.ofNat 35)

/-- Hexadecimal digit value. -/
def hexVal (c : Char) : Option Nat :=
  if c.isDigit then some (c.toNat - 48)
  else if 'a' ≤ c ∧ c ≤ 'f' then some (c.toNat - 87)
  else if 'A' ≤ c ∧ c ≤ 'F' then some (c.toNat - 55)
  else none

/-- Uppercase hexadecimal digit. -/
def hexDigit (n : Nat) : Char :=
  if n < 10 then Char.ofNat (48 + n) else Char.ofNat (55 + n)

/-- UTF-8 bytes of a character. -/
def utf8Bytes (c : Char) : List Nat :=
  let n := c.toNat
  if n < 128 then [n]
  else if n < 2048 then [192 + n / 64, 128 + n % 64]
  else if n < 65536 then [224 + n / 4096, 128 + (n / 64) % 64, 128 + n % 64]
  else [240 + n / 262144, 128 + (n / 4096) % 64, 128 + (n / 64) % 64, 128 + n % 64]

/-- `urllib.parse.quote(s, safe=...)`: percent-encode everything except
ASCII alphanumerics, `_.-~` and the extra safe characters. -/
def pyQuote (safeExtra : List Char) (s : PyStr) : PyStr :=
  s.flatMap (fun c =>
    if c.isAlphanum ∨ c ∈ ['_', Char.ofNat 46, Char.ofNat 45, '~'] ∨ c ∈ safeExtra
    then [c]
    else (utf8Bytes c).flatMap (fun b => ['%', hexDigit (b / 16), hexDigit (b % 16)]))

/-- `urllib.parse.quote_plus(s)`: like `quote` but spaces become `+`. -/
def pyQuotePlus (s : PyStr) : PyStr :=
  (pyQuote [' '] s).map (fun c => if c = ' ' then '+' else c)

/-- Join with `&`. -/
def joinAmp : List PyStr → PyStr
  | [] => []
  | [s] => s
  | s :: rest => s ++ ['&'] ++ joinAmp rest

/-- `urllib.parse.urlencode(query)`: `quote_plus(str(k))=quote_plus(str(v))`
pairs joined by `&`. -/
def urlencode (fuel : Nat) (q : List (PyStr × PyVal)) : PyStr :=
  joinAmp (q.map (fun p =>
    pyQuotePlus p.1 ++ ['='] ++ pyQuotePlus (pyStrOf fuel p.2)))

/-- Percent-decoding (invalid escapes are kept literally, as in
`urllib.parse.unquote`; multi-byte UTF-8 sequences are decoded bytewise —
an approximation that no claim observes). -/
def percentDecodeF : Nat → PyStr → PyStr
  | 0, s => s
  | fuel + 1, s =>
      match s with
      | [] => []
      | c :: cs =>
          if c = '%' then
            match cs with
            | h1 :: h2 :: rest =>
                match hexVal h1, hexVal h2 with
                | some a, some b => Char.ofNat (a * 16 + b) :: percentDecodeF fuel rest
                | _, _ => c :: percentDecodeF fuel cs
            | _ => c :: percentDecodeF fuel cs
          else c :: percentDecodeF fuel cs

/-- `urllib.parse.unquote_plus`: `+` to space, then percent-decode. -/
def unquotePlus (s : PyStr) : PyStr :=
  percentDecodeF s.length (s.map (fun c => if c = '+' then ' ' else c))

/-- Replace bindings in place, or append (Python dict assignment). -/
def dictSetItem (d : PyDict) (k : PyStr) (v : PyVal) : PyDict :=
  if (dictGet d k).isSome then d.map (fun p => if p.1 = k then (k, v) else p)
  else d ++ [(k, v)]

/-- Python `dict.update(new)`: existing keys keep their position with the
new value; new keys are appended in order. -/
def dictUpdate (d new : PyDict) : PyDict :=
  new.foldl (fun acc p => dictSetItem acc p.1 p.2) d

/-- `urllib.parse.parse_qsl(text, keep_blank_values=True)`. -/
def parseQsl (text : PyStr) : List (PyStr × PyStr) :=
  ((text.splitOn '&').filter (fun c => ¬ c.isEmpty)).map (fun chunk =>
    let name := chunk.takeWhile (fun c => c ≠ '=')
    let value := if name.length = chunk.length then [] else chunk.drop (name.length + 1)
    (unquotePlus name, unquotePlus value))

/-- `{k: v for k, v in pairs}` over query-string pairs. -/
def qslToDict (pairs : List (PyStr × PyStr)) : PyDict :=
  pairs.foldl (fun acc p => dictSetItem acc p.1 (.vstr p.2)) []

/-- Minimal JSON string escaping for `json.dumps` (quotes and backslashes;
`ensure_ascii` escaping of non-ASCII is not modelled — no claim observes
the serialized text of such strings). -/
def jsonEscape (s : PyStr) : PyStr :=
  s.flatMap (fun c => if c = '"' ∨ c = '\\' then ['\\', c] else [c])

/-- `json.dumps(v)` with default separators. -/
def jsonDumpsF : Nat → PyVal → PyStr
  | 0, _ => []
  | fuel + 1, v =>
      match v with
      | .vstr s => '"' :: (jsonEscape s ++ ['"'])
      | .vint n => (toString n).data
      | .vfloat s => s
      | .vbool true => pys "true"
      | .vbool false => pys "false"
      | .vnone => pys "null"
      | .vlist xs => '[' :: (joinComma (xs.map (jsonDumpsF fuel)) ++ [']'])
      | .vdict kvs =>
          Char.ofNat 123 ::
            (joinComma (kvs.map (fun p =>
              '"' :: (jsonEscape p.1 ++ pys "\": ") ++ jsonDumpsF fuel p.2)) ++
              [Char.ofNat 125])

/-! ### A JSON parser modelling `json.loads` (strict mode; the non-standard
`NaN`/`Infinity` constants accepted by CPython are not modelled — no claim
depends on them). -/

def skipJsonWs (s : PyStr) : PyStr :=
  s.dropWhile (fun c => c = ' ' ∨ c = '\t' ∨ c = '\n' ∨ c = '\r')

/-- Parse the remainder of a JSON string literal (after the opening
quote): returns content and rest. -/
def jsonStringF : Nat → PyStr → Option (PyStr × PyStr)
  | 0, _ => none
  | fuel + 1, s =>
      match s with
      | [] => none
      | c :: rest =>
          if c = '"' then some ([], rest)
          else if c = '\\' then
            match rest with
            | [] => none
            | e :: rest2 =>
                if e = 'u' then
                  match rest2 with
                  | h1 :: h2 :: h3 :: h4 :: rest3 =>
                      match hexVal h1, hexVal h2, hexVal h3, hexVal h4 with
                      | some a, some b, some c2, some d =>
                          match jsonStringF fuel rest3 with
                          | some (content, rem) =>
                              some (Char.ofNat (((a * 16 + b) * 16 + c2) * 16 + d) :: content, rem)
                          | none => none
                      | _, _, _, _ => none
                  | _ => none
                else
                  let dec : Option Char :=
                    if e = '"' then some '"' else if e = '\\' then some '\\'
                    else if e = Char.ofNat 47 then some (Char.ofNat 47)
                    else if e = 'b' then some (Char.ofNat 8)
                    else if e = 'f' then some (Char.ofNat 12)
                    else if e = 'n' then some '\n'
                    else if e = 'r' then some '\r'
                    else if e = 't' then some '\t'
                    else none
                  match dec with
                  | some ch =>
                      match jsonStringF fuel rest2 with
                      | some (content, rem) => some (ch :: content, rem)
                      | none => none
                  | none => none
          else
            match jsonStringF fuel rest with
            | some (content, rem) => some (c :: content, rem)
            | none => none

/-- Longest JSON number lexeme at the head of `s` (empty if none). -/
def jsonNumLexeme (s : PyStr) : PyStr :=
  let sign : PyStr := match s with | '-' :: _ => ['-'] | _ => []
  let r := s.drop sign.length
  let ip := r.takeWhile Char.isDigit
  if ip.isEmpty then []
  else
    let r2 := r.drop ip.length
    let frac : PyStr :=
      match r2 with
      | c :: r3 =>
          if c = Char.ofNat 46 then
            let fd := r3.takeWhile Char.isDigit
            if fd.isEmpty then [] else c :: fd
          else []
      | [] => []
    let r4 := r2.drop frac.length
    let ex : PyStr :=
      match r4 with
      | c :: r5 =>
          if c = 'e' ∨ c = 'E' then
            let es : PyStr := match r5 with
              | '+' :: _ => ['+'] | '-' :: _ => ['-'] | _ => []
            let r6 := r5.drop es.length
            let ed := r6.takeWhile Char.isDigit
            if ed.isEmpty then [] else c :: (es ++ ed)
          else []
      | [] => []
    sign ++ ip ++ frac ++ ex

/-- Parse a JSON number at the head of `s`: integer literals decode to
Python ints, others to floats (carrying their lexeme). -/
def jsonNumber (s : PyStr) : Option (PyVal × PyStr) :=
  let lex := jsonNumLexeme s
  if lex.isEmpty then none
  else
    let isInt := ¬ lex.any (fun c => c = Char.ofNat 46 ∨ c = 'e' ∨ c = 'E')
    let v := if isInt then
        (match pyIntParse lex with | some n => PyVal.vint n | none => PyVal.vint 0)
      else PyVal.vfloat lex
    some (v, s.drop lex.length)

/-- Object-member loop: parse `"key": value` pairs separated by commas,
closed by the closing brace character. -/
def jsonMembersF (pv : PyStr → Option (PyVal × PyStr)) :
    Nat → PyStr → PyDict → Option (PyDict × PyStr)
  | 0, _, _ => none
  | fuel + 1, s, acc =>
      match skipJsonWs s with
      | [] => none
      | c :: r =>
          if c = Char.ofNat 125 ∧ acc.isEmpty then some (acc, r)
          else if c = '"' then
            match jsonStringF (r.length + 1) r with
            | none => none
            | some (key, r2) =>
                match skipJsonWs r2 with
                | ':' :: r3 =>
                    match pv r3 with
                    | none => none
                    | some (v, r4) =>
                        let acc2 := dictSetItem acc key v
                        match skipJsonWs r4 with
                        | ',' :: r5 => jsonMembersF pv fuel r5 acc2
                        | c2 :: r5 =>
                            if c2 = Char.ofNat 125 then some (acc2, r5) else none
                        | [] => none
                | _ => none
          else none

/-- Array-item loop. -/
def jsonItemsF (pv : PyStr → Option (PyVal × PyStr)) :
    Nat → PyStr → List PyVal → Option (List PyVal × PyStr)
  | 0, _, _ => none
  | fuel + 1, s, acc =>
      match skipJsonWs s with
      | [] => none
      | c :: r =>
          if c = ']' ∧ acc.isEmpty then some (acc, r)
          else
            match pv (c :: r) with
            | none => none
            | some (v, r2) =>
                match skipJsonWs r2 with
                | ',' :: r3 => jsonItemsF pv fuel r3 (acc ++ [v])
                | c2 :: r3 => if c2 = ']' then some (acc ++ [v], r3) else none
                | [] => none

/-- Parse one JSON value; fuel bounds nesting depth. -/
def jsonValueF : Nat → PyStr → Option (PyVal × PyStr)
  | 0, _ => none
  | fuel + 1, s0 =>
      match skipJsonWs s0 with
      | [] => none
      | c :: rest =>
          if c = '"' then
            (jsonStringF (rest.length + 1) rest).map (fun p => (PyVal.vstr p.1, p.2))
          else if c = Char.ofNat 123 then
            (jsonMembersF (jsonValueF fuel) (rest.length + 1) rest []).map
              (fun p => (PyVal.vdict p.1, p.2))
          else if c = '[' then
            (jsonItemsF (jsonValueF fuel) (rest.length + 1) rest []).map
              (fun p => (PyVal.vlist p.1, p.2))
          else if (pys "true").isPrefixOf (c :: rest) then
            some (.vbool true, (c :: rest).drop 4)
          else if (pys "false").isPrefixOf (c :: rest) then
            some (.vbool false, (c :: rest).drop 5)
          else if (pys "null").isPrefixOf (c :: rest) then
            some (.vnone, (c :: rest).drop 4)
          else jsonNumber (c :: rest)

/-- `json.loads(s)`: `none` models a raised `json.JSONDecodeError`. -/
def jsonLoads (s : PyStr) : Option PyVal :=
  match jsonValueF (s.length + 1) s with
  | some (v, rest) => if (skipJsonWs rest).isEmpty then some v else none
  | none => none

/-! ### Python `int(...)` applied to arbitrary values -/

/-- `int(float(s))` on a decimal literal: exact decimal truncation toward
zero (the double-rounding of the intermediate binary float is not
modelled; no claim observes these magnitudes).  `inf`/`nan` raise. -/
def floatTruncInt (s : PyStr) : Except PyErr Int :=
  let t := signSplit (stripWs s)
  let neg : Bool := match stripWs s with | '-' :: _ => true | _ => false
  let tl := t.map Char.toLower
  if tl = pys "inf" || tl = pys "infinity" || tl = pys "nan" then
    .error (.valueError (pys "cannot convert to integer"))
  else if ¬ pyFloatParses s then
    .error (.valueError (pys "could not convert string to float"))
  else
    let sp := expSplit t
    let m := sp.1
    let ipRaw := m.takeWhile (fun c => c ≠ Char.ofNat 46)
    let ip := ipRaw.filter (fun c => c ≠ '_')
    let fp := (m.drop (ipRaw.length + 1)).filter (fun c => c ≠ '_')
    let e : Int :=
      match sp.2 with
      | none => 0
      | some ex =>
          let eneg : Bool := match ex with | '-' :: _ => true | _ => false
          let ev : Int := (digitsVal ((signSplit ex).filter (fun c => c ≠ '_')) : Int)
          if eneg then -ev else ev
    let digits : Int := (digitsVal (ip ++ fp) : Int)
    let scale : Int := e - fp.length
    let mag : Int :=
      if 0 ≤ scale then digits * 10 ^ scale.toNat
      else digits / 10 ^ (-scale).toNat
    .ok (if neg then -mag else mag)

/-- Python `int(v)` for a dynamic value. -/
def pyIntOfE (v : PyVal) : Except PyErr Int :=
  match v with
  | .vint n => .ok n
  | .vbool b => .ok (if b then 1 else 0)
  | .vfloat s => floatTruncInt s
  | .vstr s =>
      match pyIntParse s with
      | some n => .ok n
      | none => .error (.valueError (pys "invalid literal for int"))
  | _ => .error (.typeError (pys "int argument must be a string or a number"))

/-- Python `x or default` on an optional lookup result. -/
def pyOrD (o : Option PyVal) (dflt : PyVal) : PyVal :=
  match o with
  | some v => if pyTruthy v then v else dflt
  | none => dflt

/-- Python `a or b or ... or default` over several lookups. -/
def pyOrChain (vals : List (Option PyVal)) (dflt : PyVal) : PyVal :=
  match vals with
  | [] => dflt
  | o :: rest =>
      match o with
      | some v => if pyTruthy v then v else pyOrChain rest dflt
      | none => pyOrChain rest dflt

/-- Python `.items()` (`AttributeError` on non-dicts). -/
def pyItemsE : PyVal → Except PyErr PyDict
  | .vdict kvs => .ok kvs
  | _ => .error (.attributeError (pys "object has no attribute 'items'"))

/-- Python `repr` of a list of strings, as interpolated by
`f"...: {disallowed}"`. -/
def pyReprStrList (xs : List PyStr) : PyStr :=
  '[' :: (joinComma (xs.map (fun s => '\'' :: (s ++ ['\'']))) ++ [']'])

/-- The message text of an exception as interpolated by `f"{err}"`. -/
def pyErrMsg : PyErr → PyStr
  | .typeError m => m
  | .valueError m => m
  | .attributeError m => m
  | .otherError m => m

/-! ### `src/tools.py` — HTTP tool references, validation, execution -/

/-- `HttpToolRef` (tools.py 86–89). -/
structure HttpToolRef where
  tool_id : PyStr
  version : PyStr

/-- `_parse_http_tool_ref` (tools.py 108–132). -/
def parseHttpToolRef (tool_ref : PyStr) : Option HttpToolRef :=
  if ¬ (pys "http:").isPrefixOf tool_ref then none
  else
    let payload := stripWs (tool_ref.drop 5)
    if payload.isEmpty then none
    else if payload.any (fun c => c = '@') then
      let front := payload.takeWhile (fun c => c ≠ '@')
      let tid := stripWs front
      let v := stripWs (payload.drop (front.length + 1))
      let version := if v.isEmpty then pys "1" else v
      if tid.isEmpty then none else some ⟨tid, version⟩
    else some ⟨payload, pys "1"⟩

/-- `HttpToolDefinition` (tools.py 92–105). -/
structure HttpToolDefinition where
  tool_id : PyStr
  version : PyStr
  method : PyStr
  base_url : PyStr
  path_template : PyStr
  allowed_query_keys : List PyStr
  headers_static : List (PyStr × PyStr)
  headers_dynamic_allowlist : List PyStr
  timeout_ms : Int
  max_response_bytes : Int
  response_allowlist : List PyStr
  description : PyStr

/-- `[str(k) for k in (x or [])]`. -/
def strListOf (fuel : Nat) (v : PyVal) : Except PyErr (List PyStr) := do
  let xs ← pyIterE v
  pure (xs.map (pyStrOf fuel))

/-- `_validate_http_tool_definition` (tools.py 174–219): `ok none` models a
rejected definition (`return None`), `ok (some d)` an accepted one, and
`error` a raised exception (e.g. `int("garbage")` on a malformed
`timeout_ms`, which the source does not catch). -/
def validateHttpToolDefinition (fuel : Nat) (raw : PyDict) :
    Except PyErr (Option HttpToolDefinition) := do
  let method := pyUpper (pyStrOf fuel (dictGetD raw (pys "method") (.vstr (pys "GET"))))
  let base_url := stripWs (pyStrOf fuel (dictGetD raw (pys "base_url") (.vstr [])))
  let pt0 := stripWs (pyStrOf fuel (dictGetD raw (pys "path_template") (.vstr (pys "/"))))
  let path_template0 := if pt0.isEmpty then pys "/" else pt0
  if ¬ (pys "https://").isPrefixOf base_url then
    return none
  else
    let netloc := urlparseNetloc base_url
    if netloc.isEmpty then
      return none
    else do
      let path_template :=
        if (pys "/").isPrefixOf path_template0 then path_template0
        else Char.ofNat 47 :: path_template0
      let allowed_query_keys ←
        strListOf fuel (pyOrD (dictGet raw (pys "allowed_query_keys")) (.vlist []))
      let hsPairs ← pyItemsE (pyOrD (dictGet raw (pys "headers_static")) (.vdict []))
      let headers_static := hsPairs.map (fun p => (p.1, pyStrOf fuel p.2))
      let headers_dynamic_allowlist ←
        strListOf fuel (pyOrD (dictGet raw (pys "headers_dynamic_allowlist")) (.vlist []))
      let timeout_ms ← pyIntOfE (pyOrD (dictGet raw (pys "timeout_ms")) (.vint 8000))
      let max_response_bytes ←
        pyIntOfE (pyOrD (dictGet raw (pys "max_response_bytes")) (.vint 8192))
      let response_allowlist ←
        strListOf fuel (pyOrD (dictGet raw (pys "response_allowlist")) (.vlist []))
      let tool_id := pyStrOf fuel (pyOrChain
        [dictGet raw (pys "http_tool_id"), dictGet raw (pys "tool_id"),
         dictGet raw (pys "id")] (.vstr (pys "http_tool")))
      let version := pyStrOf fuel (pyOrD (dictGet raw (pys "version")) (.vstr (pys "1")))
      let description := pyStrOf fuel (pyOrD (dictGet raw (pys "description"))
        (.vstr (pys "Call configured endpoint " ++ method ++ [' '] ++ netloc ++ path_template)))
      return some {
        tool_id := tool_id
        version := version
        method := method
        base_url := rstripSlash base_url
        path_template := path_template
        allowed_query_keys := allowed_query_keys
        headers_static := headers_static
        headers_dynamic_allowlist := headers_dynamic_allowlist
        timeout_ms := max timeout_ms 100
        max_response_bytes := max max_response_bytes 256
        response_allowlist := response_allowlist
        description := description }

/-- `re.findall(r"\x7b([^\x7b\x7d]+)\x7d", s)` — the placeholder names of a
path template (fuel bounds the scan, one unit per character). -/
def findPlaceholdersF : Nat → PyStr → List PyStr
  | 0, _ => []
  | _, [] => []
  | fuel + 1, c :: cs =>
      if c = Char.ofNat 123 then
        let content := cs.takeWhile
          (fun x => x ≠ Char.ofNat 123 ∧ x ≠ Char.ofNat 125)
        match cs.drop content.length with
        | r :: rs =>
            if r = Char.ofNat 125 ∧ content ≠ [] then
              content :: findPlaceholdersF fuel rs
            else findPlaceholdersF fuel cs
        | [] => findPlaceholdersF fuel cs
      else findPlaceholdersF fuel cs

def findPlaceholders (s : PyStr) : List PyStr := findPlaceholdersF s.length s

/-- `str.replace(target, repl)` (all occurrences, left to right). -/
def strReplaceF : Nat → PyStr → PyStr → PyStr → PyStr
  | 0, _, _, s => s
  | fuel + 1, target, repl, s =>
      match s with
      | [] => []
      | c :: cs =>
          if target.isPrefixOf (c :: cs) ∧ target ≠ [] then
            repl ++ strReplaceF fuel target repl ((c :: cs).drop target.length)
          else c :: strReplaceF fuel target repl cs

def strReplace (target repl s : PyStr) : PyStr := strReplaceF s.length target repl s

/-- The placeholder-substitution loop of `_render_path`. -/
def renderPathGo (fuel : Nat) (params : PyDict) :
    List PyStr → PyStr → Except PyErr PyStr
  | [], rendered => .ok rendered
  | key :: rest, rendered =>
      match dictGet params key with
      | none => .error (.valueError (pys "Missing required path param: " ++ key))
      | some v =>
          renderPathGo fuel params rest
            (strReplace (Char.ofNat 123 :: key ++ [Char.ofNat 125])
              (pyQuote [] (pyStrOf fuel v)) rendered)

/-- `_render_path` (tools.py 222–230). -/
def renderPath (fuel : Nat) (path_template : PyStr) (params : PyDict) :
    Except PyErr PyStr :=
  renderPathGo fuel params (findPlaceholders path_template) path_template

/-- `_parse_object_arg` (tools.py 234–267): `ok` is the parsed dict,
`error` the textual error returned to the caller (the source never raises
here).  The detail text of the JSON error message is abstracted. -/
def parseObjectArg (allowQuerystring : Bool) (argName : PyStr) (raw : PyVal) :
    Except PyStr PyDict :=
  match raw with
  | .vnone => .ok []
  | .vdict kvs => .ok kvs
  | .vstr s =>
      let text := stripWs s
      if text.isEmpty then .ok []
      else if allowQuerystring ∧ text.any (fun c => c = '=') ∧
          ¬ [Char.ofNat 123].isPrefixOf text then
        .ok (qslToDict (parseQsl text))
      else
        match jsonLoads text with
        | none => .error (pys "Invalid JSON for " ++ argName ++ pys ": invalid JSON")
        | some .vnone => .ok []
        | some (.vdict kvs) => .ok kvs
        | some _ => .error (argName ++ pys " must decode to a JSON object")
  | _ => .error (argName ++ pys " must be a JSON object string")

/-- The request handed to `urllib.request.Request` (headers as passed in;
urllib's internal key capitalization is outside the modelled boundary). -/
structure HttpRequest where
  url : PyStr
  method : PyStr
  headers : List (PyStr × PyVal)
  data : Option PyStr

/-- Observable outcome of one `_http_tool` invocation: either a textual
result returned before any network I/O was attempted, or the request that
was performed together with the text returned to the caller. -/
inductive ToolResult where
  | errText (msg : PyStr)
  | attempted (req : HttpRequest) (text : PyStr)

/-- The network boundary: `urllib.request.urlopen` + read, yielding
`(status, decoded body)` or raising an arbitrary exception. -/
abbrev NetOracle := HttpRequest → Except PyErr (Int × PyStr)

/-- The compatibility alias of `_http_tool` (tools.py 306–308):
`if "current_weather" in query and "current" not in query:
query["current"] = query.pop("current_weather")` — the popped key is
removed from its position and `"current"` is appended as a new key. -/
def aliasCurrentWeather (query0 : PyDict) : PyDict :=
  if (dictGet query0 (pys "current_weather")).isSome ∧
      ¬ (dictGet query0 (pys "current")).isSome then
    match dictGet query0 (pys "current_weather") with
    | some v =>
        (query0.filter (fun p => p.1 ≠ pys "current_weather")) ++ [(pys "current", v)]
    | none => query0
  else query0

/-- The request built by `_http_tool` (tools.py 325–343): URL from base,
rendered path and encoded query; static headers overridden by allowed
dynamic headers; the JSON-encoded body (always sent — `_parse_object_arg`
never returns `None` on success, so the `if body is not None` guard is
always taken) with `Content-Type` defaulted. -/
def mkHttpRequest (fuel : Nat) (defn : HttpToolDefinition) (path : PyStr)
    (query : PyDict) (body : PyDict) (dynamic_headers : PyDict) : HttpRequest :=
  let query_string := urlencode fuel query
  let url := defn.base_url ++ path ++
    (if query_string.isEmpty then [] else '?' :: query_string)
  let request_headers :=
    dictUpdate (defn.headers_static.map (fun p => (p.1, PyVal.vstr p.2))) dynamic_headers
  let data := jsonDumpsF fuel (.vdict body)
  let request_headers :=
    dictSetDefault request_headers (pys "Content-Type") (.vstr (pys "application/json"))
  ⟨url, defn.method, request_headers, some data⟩

/-- The part of `_http_tool` after the dynamic-header decision (tools.py
325–368): build the request, attempt it, and format the response
(filtered by `response_allowlist` when it decodes to a JSON object). -/
def httpToolFinish (fuel : Nat) (defn : HttpToolDefinition) (path : PyStr)
    (query : PyDict) (body : PyDict) (dynamic_headers : PyDict)
    (net : NetOracle) : ToolResult :=
  match net (mkHttpRequest fuel defn path query body dynamic_headers) with
  | .error err =>
      .attempted (mkHttpRequest fuel defn path query body dynamic_headers)
        (pys "Request failed: " ++ pyErrMsg err)
  | .ok (status, payload_text) =>
      .attempted (mkHttpRequest fuel defn path query body dynamic_headers)
        (pys "HTTP " ++ (toString status).data ++ pys ": " ++
          (match jsonLoads payload_text with
           | none => payload_text
           | some (PyVal.vdict kvs) =>
               if ¬ defn.response_allowlist.isEmpty then
                 jsonDumpsF fuel (.vdict (defn.response_allowlist.foldl
                   (fun acc k => dictSetItem acc k ((dictGet kvs k).getD .vnone)) []))
               else jsonDumpsF fuel (.vdict kvs)
           | some payload_json => jsonDumpsF fuel payload_json))

/-- `_http_tool` (tools.py 269–368): parse the four JSON-object string
arguments, render the path (its `ValueError` caught and returned as text —
any other exception would escape the `except ValueError` clause, hence the
explicit `Except` channel), apply the `current_weather` alias, enforce the
query-key and dynamic-header allow-lists, then perform the request.  Every
other failure mode of the source body is caught and returned as text
(argument-parse failures as error strings, transport failures via the
`except Exception` around the request); that the whole run always yields
`.ok` is claim C5. -/
def httpToolRun (fuel : Nat) (defn : HttpToolDefinition)
    (path_params_json query_json body_json headers_json : PyVal)
    (net : NetOracle) : Except PyErr ToolResult :=
  match parseObjectArg false (pys "path_params_json") path_params_json with
  | .error e => .ok (.errText e)
  | .ok path_params =>
  match parseObjectArg true (pys "query_json") query_json with
  | .error e => .ok (.errText e)
  | .ok query0 =>
  match parseObjectArg false (pys "headers_json") headers_json with
  | .error e => .ok (.errText e)
  | .ok headers =>
  match parseObjectArg false (pys "body_json") body_json with
  | .error e => .ok (.errText e)
  | .ok body =>
  match renderPath fuel defn.path_template path_params with
  | .error (.valueError m) => .ok (.errText m)
  | .error e => .error e
  | .ok path => .ok <|
  if ¬ defn.allowed_query_keys.isEmpty ∧
      ¬ (((aliasCurrentWeather query0).map Prod.fst).filter
        (fun k => k ∉ defn.allowed_query_keys)).isEmpty then
    .errText (pys "Disallowed query keys: " ++
      pyReprStrList (((aliasCurrentWeather query0).map Prod.fst).filter
        (fun k => k ∉ defn.allowed_query_keys)))
  else
    if ¬ defn.headers_dynamic_allowlist.isEmpty then
      if ¬ ((headers.map Prod.fst).filter
          (fun k => k ∉ defn.headers_dynamic_allowlist)).isEmpty then
        .errText (pys "Disallowed header keys: " ++
          pyReprStrList ((headers.map Prod.fst).filter
            (fun k => k ∉ defn.headers_dynamic_allowlist)))
      else httpToolFinish fuel defn path (aliasCurrentWeather query0) body headers net
    else httpToolFinish fuel defn path (aliasCurrentWeather query0) body [] net

/-! ### `resolve_tools` (tools.py 412–445) -/

/-- The compiled tool list's elements: a built-in from the fixed registry,
or a compiled HTTP tool carrying its validated definition. -/
inductive FunctionTool where
  | builtin (name : PyStr)
  | http (defn : HttpToolDefinition)

def builtinRegistryNames : List PyStr := [pys "hang_up", pys "wait", pys "send_dtmf"]

/-- One store read's outcome, as seen by `_fetch_http_tool_definition`:
a `ClientError`/unexpected exception (caught, yielding `None`), a lookup
miss, or the raw item. -/
inductive StoreResp where
  | storeErr
  | missing
  | item (i : PyDict)

/-- `_fetch_http_tool_definition` (tools.py 377–409): store errors and
misses yield `none`; on a hit the item is decoded (outside the
`try`/`except`, so decode errors propagate), the ref's id/version are
set as defaults, and the definition is validated. -/
def fetchHttpToolDefinition (fuel : Nat) (ref : HttpToolRef) (resp : StoreResp) :
    Except PyErr (Option HttpToolDefinition) :=
  match resp with
  | .storeErr => .ok none
  | .missing => .ok none
  | .item i =>
      if i.isEmpty then .ok none
      else do
        let parsed ← ddbItemToDictT fuel i
        let parsed := dictSetDefault parsed (pys "http_tool_id") (.vstr ref.tool_id)
        let parsed := dictSetDefault parsed (pys "version") (.vstr ref.version)
        validateHttpToolDefinition fuel parsed

/-- `resolve_tools` (tools.py 412–445) with the store modelled as an
oracle from HTTP tool refs to responses. -/
def resolveTools (fuel : Nat) (store : HttpToolRef → StoreResp) :
    List PyStr → Except PyErr (List FunctionTool)
  | [] => .ok []
  | tid :: rest =>
      if tid ∈ builtinRegistryNames then do
        let others ← resolveTools fuel store rest
        pure (.builtin tid :: others)
      else
        match parseHttpToolRef tid with
        | some ref => do
            let defnOpt ← fetchHttpToolDefinition fuel ref (store ref)
            match defnOpt with
            | none => resolveTools fuel store rest
            | some d => do
                let others ← resolveTools fuel store rest
                pure (.http d :: others)
        | none => resolveTools fuel store rest

/-- A store whose every HTTP tool record is a minimal valid https
definition (used to witness membership facts about `resolveTools`). -/
def exampleStore : HttpToolRef → StoreResp := fun _ =>
  .item [(pys "base_url", .vdict [(pys "S", .vstr (pys "https://api.example.com"))])]

/-- The definition `exampleStore`'s record validates to for the ref
`http:weather`. -/
def exampleHttpDefn : HttpToolDefinition :=
  { tool_id := pys "weather"
    version := pys "1"
    method := pys "GET"
    base_url := pys "https://api.example.com"
    path_template := pys "/"
    allowed_query_keys := []
    headers_static := []
    headers_dynamic_allowlist := []
    timeout_ms := 8000
    max_response_bytes := 8192
    response_allowlist := []
    description := pys "Call configured endpoint GET api.example.com/" }

/-- A network oracle that always answers `200` with an empty JSON object. -/
def netOk200 : NetOracle := fun _ => .ok (200, pys "\x7b\x7d")

/-- The request `exampleHttpDefn` produces for a call with no arguments. -/
def exampleRequest : HttpRequest :=
  ⟨pys "https://api.example.com/", pys "GET",
   [(pys "Content-Type", .vstr (pys "application/json"))],
   some (pys "\x7b\x7d")⟩

/-- `exampleHttpDefn` restricted to the single allowed query key
`current` (the Open-Meteo shape the alias in `_http_tool` targets). -/
def exampleWeatherDefn : HttpToolDefinition :=
  { exampleHttpDefn with
      tool_id := pys "weather_current"
      allowed_query_keys := [pys "current"] }

/-- The request `exampleWeatherDefn` produces for a call whose query is
`current_weather=x` (aliased to `current=x`). -/
def exampleWeatherRequest : HttpRequest :=
  ⟨pys "https://api.example.com/?current=x", pys "GET",
   [(pys "Content-Type", .vstr (pys "application/json"))],
   some (pys "\x7b\x7d")⟩

/-- `exampleHttpDefn` restricted to the single allowed query key `q`. -/
def exampleQDefn : HttpToolDefinition :=
  { exampleHttpDefn with allowed_query_keys := [pys "q"] }


/-! ### `src/config.py` and `src/profile_resolver.py` — profile resolution -/

/-- `config.PresetRef`: `id` and `version` carry whatever dynamic values
`_parse_preset_ref`'s `preset_data.get(...)` calls produce (the missing
default for `version` is `None`). -/
structure PresetRef where
  id : PyVal
  version : PyVal

/-- `config.ProfileLimits`: field values are whatever
`limits_data.get(...)` returns; missing means `None`. -/
structure ProfileLimits where
  max_minutes : PyVal
  max_tool_calls : PyVal
  max_tool_calls_per_minute : PyVal

/-- `config.SessionBehaviorConfig`, fields in source order; each field
holds the dynamic value produced by `behavior_data.get(key, default)`. -/
structure SessionBehaviorConfig where
  allow_interruptions : PyVal
  discard_audio_if_uninterruptible : PyVal
  min_interruption_duration : PyVal
  min_interruption_words : PyVal
  min_endpointing_delay : PyVal
  max_endpointing_delay : PyVal
  false_interruption_timeout : PyVal
  resume_false_interruption : PyVal
  min_consecutive_speech_delay : PyVal
  user_away_timeout : PyVal
  max_tool_steps : PyVal
  use_tts_aligned_transcript : PyVal
  tts_text_transforms : PyVal
  preemptive_generation : PyVal
  ivr_detection : PyVal
  turn_detection : PyVal

/-- `config.ConnectionOptions`. -/
structure ConnectionOptions where
  max_unrecoverable_errors : PyVal

/-- `config.AudioInputOptions`. -/
structure AudioInputOptions where
  sample_rate : PyVal
  num_channels : PyVal
  frame_size_ms : PyVal
  noise_cancellation : PyVal
  pre_connect_audio : PyVal
  pre_connect_audio_timeout : PyVal

/-- `config.AudioOutputOptions`. -/
structure AudioOutputOptions where
  sample_rate : PyVal
  num_channels : PyVal
  track_name : PyVal

/-- `config.TextInputOptions`. -/
structure TextInputOptions where
  enabled : PyVal

/-- `config.TextOutputOptions`. -/
structure TextOutputOptions where
  enabled : PyVal
  sync_transcription : PyVal
  transcription_speed_factor : PyVal

/-- `config.VideoInputOptions`: `enabled` is a plain bool in the source
and `_build_profile_config` only ever constructs it with its default. -/
structure VideoInputOptions where
  enabled : Bool

/-- A Python `Options | bool` union field of `RoomIOConfig`. -/
inductive OrBool (A : Type) where
  | asBool (b : Bool)
  | asOpts (o : A)

/-- `config.RoomIOConfig`, fields in source order. -/
structure RoomIOConfig where
  text_input : OrBool TextInputOptions
  audio_input : OrBool AudioInputOptions
  video_input : OrBool VideoInputOptions
  audio_output : OrBool AudioOutputOptions
  text_output : OrBool TextOutputOptions
  participant_kinds : PyVal
  participant_identity : PyVal
  close_on_disconnect : PyVal
  delete_room_on_close : PyVal

/-- `config.AgentProfileConfig`, fields in source order. -/
structure AgentProfileConfig where
  profile_id : PyVal
  version : PyVal
  tenant_id : PyVal
  mode : PyVal
  system_prompt : PyVal
  language : PyVal
  llm_preset_ref : Option PresetRef
  stt_preset_ref : Option PresetRef
  tts_preset_ref : Option PresetRef
  realtime_preset_ref : Option PresetRef
  tool_refs : PyVal
  limits : ProfileLimits
  session_behavior : SessionBehaviorConfig
  room_options : RoomIOConfig
  conn_options : ConnectionOptions
  created_at : PyVal
  updated_at : PyVal
  status : PyVal

/-- `config.get_default_profile()` (config.py 204-262), the built-in
fallback profile with every field populated. -/
def getDefaultProfile : AgentProfileConfig where
  profile_id := .vstr (pys "default")
  version := .vstr (pys "1")
  tenant_id := .vstr (pys "default")
  mode := .vstr (pys "realtime")
  system_prompt := .vstr (pys "You are a helpful voice AI assistant. \n        The user is interacting with you via voice, even if you perceive the conversation as text.\n        Your responses are concise, to the point, and without any complex formatting or punctuation including emojis, asterisks, or other symbols.\n        You are curious, friendly, and have a sense of humor.")
  language := .vstr (pys "en")
  llm_preset_ref := some ⟨.vstr (pys "gpt-5.1"), .vstr (pys "1")⟩
  stt_preset_ref := some ⟨.vstr (pys "nova-3"), .vstr (pys "1")⟩
  tts_preset_ref := some ⟨.vstr (pys "sonic-3"), .vstr (pys "1")⟩
  realtime_preset_ref := some ⟨.vstr (pys "amazon.nova-2-sonic-v1:0"), .vstr (pys "1")⟩
  tool_refs := .vlist [.vstr (pys "http:weather_geocode@1"), .vstr (pys "http:weather_current@1")]
  limits := ⟨.vint 30, .vint 50, .vint 10⟩
  session_behavior := ⟨.vbool true, .vbool true, .vfloat (pys "0.5"), .vint 0,
    .vfloat (pys "0.5"), .vfloat (pys "3.0"), .vfloat (pys "2.0"), .vbool true,
    .vfloat (pys "0.0"), .vfloat (pys "15.0"), .vint 3, .vnone, .vnone,
    .vbool false, .vbool false, .vnone⟩
  room_options :=
    ⟨.asBool true,
     .asOpts ⟨.vint 24000, .vint 1, .vint 50, .vnone, .vbool true, .vfloat (pys "3.0")⟩,
     .asBool false,
     .asOpts ⟨.vint 24000, .vint 1, .vnone⟩,
     .asOpts ⟨.vbool true, .vnone, .vfloat (pys "1.0")⟩,
     .vnone, .vnone, .vbool true, .vbool false⟩
  conn_options := ⟨.vint 3⟩
  created_at := .vnone
  updated_at := .vnone
  status := .vstr (pys "active")

/-- The test `isinstance(v, dict) and any(k in v for k in keys)` used by
`_build_profile_config` to detect half-decoded DynamoDB type
descriptors. -/
def isDescriptorDict (keys : List PyStr) (v : PyVal) : Bool :=
  match v with
  | .vdict d => keys.any (fun k => (dictGet d k).isSome)
  | _ => false

/-- The `preset_data` computation of `_parse_preset_ref`
(profile_resolver.py 279-292): a dict any of whose values is an
`S`/`N`/`BOOL`/`M` descriptor is run through `_dynamodb_item_to_dict`
(whose errors propagate); everything else passes through unchanged. -/
def presetDataOf (fuel : Nat) (raw : PyVal) : Except PyErr PyVal :=
  match raw with
  | .vdict d =>
      if d.any (fun kv =>
          isDescriptorDict [pys "S", pys "N", pys "BOOL", pys "M"] kv.2) then do
        let it ← ddbItemToDictP fuel [(pys "preset", .vdict d)]
        .ok (dictGetD it (pys "preset") .vnone)
      else .ok (.vdict d)
  | _ => .ok raw

/-- `_parse_preset_ref` (profile_resolver.py 274-297): falsy input gives
`None`; a non-dict `preset_data` raises `AttributeError` at
`preset_data.get("id", ...)`, which propagates to the caller. -/
def parsePresetRef (fuel : Nat) (raw : PyVal) (default_id : PyStr) :
    Except PyErr (Option PresetRef) :=
  if pyTruthy raw then
    match presetDataOf fuel raw with
    | .error e => .error e
    | .ok (.vdict pd) =>
        .ok (some ⟨dictGetD pd (pys "id") (.vstr default_id),
                   dictGetD pd (pys "version") .vnone⟩)
    | .ok _ => .error (.attributeError (pys "object has no attribute 'get'"))
  else .ok none

/-- The `limits_data` computation of `_build_profile_config`
(profile_resolver.py 309-317): a non-dict section is replaced by an
empty dict; a dict with `S`/`N`/`BOOL` descriptor values is run through
`_dynamodb_item_to_dict`. -/
def limitsDataOf (fuel : Nat) (pd : PyDict) : Except PyErr PyVal :=
  match dictGetD pd (pys "limits") (.vdict []) with
  | .vdict raw =>
      if raw.any (fun kv =>
          isDescriptorDict [pys "S", pys "N", pys "BOOL"] kv.2) then do
        let it ← ddbItemToDictP fuel [(pys "limits", .vdict raw)]
        .ok (dictGetD it (pys "limits") .vnone)
      else .ok (.vdict raw)
  | _ => .ok (.vdict [])

/-- The `ProfileLimits` construction (profile_resolver.py 319-323);
`AttributeError` when `limits_data` is not a dict (e.g. the decoder's
`str(value)` fallback on a descriptor-valued limits dict). -/
def parseLimits (fuel : Nat) (pd : PyDict) : Except PyErr ProfileLimits :=
  match limitsDataOf fuel pd with
  | .error e => .error e
  | .ok (.vdict d) =>
      .ok ⟨dictGetD d (pys "max_minutes") .vnone,
           dictGetD d (pys "max_tool_calls") .vnone,
           dictGetD d (pys "max_tool_calls_per_minute") .vnone⟩
  | .ok _ => .error (.attributeError (pys "object has no attribute 'get'"))

/-- The shared raw-section computation for `session_behavior`,
`room_options` and `conn_options` (profile_resolver.py 327-335, 358-366,
437-445): a string section is decoded with `json.loads`, a decode error
falling back to `\x7b\x7d`; any other value passes through. -/
def sectionDataOf (pd : PyDict) (key : PyStr) : PyVal :=
  match dictGetD pd key (.vdict []) with
  | .vstr s =>
      match jsonLoads s with
      | some v => v
      | none => .vdict []
  | v => v

/-- The `SessionBehaviorConfig` construction (profile_resolver.py
337-354); `AttributeError` when `behavior_data` is not a dict. -/
def parseSessionBehavior (v : PyVal) : Except PyErr SessionBehaviorConfig :=
  match v with
  | .vdict d =>
      .ok ⟨dictGetD d (pys "allow_interruptions") (.vbool true),
           dictGetD d (pys "discard_audio_if_uninterruptible") (.vbool true),
           dictGetD d (pys "min_interruption_duration") (.vfloat (pys "0.5")),
           dictGetD d (pys "min_interruption_words") (.vint 0),
           dictGetD d (pys "min_endpointing_delay") (.vfloat (pys "0.5")),
           dictGetD d (pys "max_endpointing_delay") (.vfloat (pys "3.0")),
           dictGetD d (pys "false_interruption_timeout") (.vfloat (pys "2.0")),
           dictGetD d (pys "resume_false_interruption") (.vbool true),
           dictGetD d (pys "min_consecutive_speech_delay") (.vfloat (pys "0.0")),
           dictGetD d (pys "user_away_timeout") (.vfloat (pys "15.0")),
           dictGetD d (pys "max_tool_steps") (.vint 3),
           dictGetD d (pys "use_tts_aligned_transcript") .vnone,
           dictGetD d (pys "tts_text_transforms") .vnone,
           dictGetD d (pys "preemptive_generation") (.vbool false),
           dictGetD d (pys "ivr_detection") (.vbool false),
           dictGetD d (pys "turn_detection") .vnone⟩
  | _ => .error (.attributeError (pys "object has no attribute 'get'"))

/-- The `audio_input` selection (profile_resolver.py 369-381): a dict
yields options, literal `False` disables, anything else keeps `True`. -/
def roomAudioInput (rd : PyDict) : OrBool AudioInputOptions :=
  match dictGetD rd (pys "audio_input") .vnone with
  | .vdict d =>
      .asOpts ⟨dictGetD d (pys "sample_rate") (.vint 24000),
               dictGetD d (pys "num_channels") (.vint 1),
               dictGetD d (pys "frame_size_ms") (.vint 50),
               dictGetD d (pys "noise_cancellation") .vnone,
               dictGetD d (pys "pre_connect_audio") (.vbool true),
               dictGetD d (pys "pre_connect_audio_timeout") (.vfloat (pys "3.0"))⟩
  | .vbool false => .asBool false
  | _ => .asBool true

/-- The `audio_output` selection (profile_resolver.py 384-393). -/
def roomAudioOutput (rd : PyDict) : OrBool AudioOutputOptions :=
  match dictGetD rd (pys "audio_output") .vnone with
  | .vdict d =>
      .asOpts ⟨dictGetD d (pys "sample_rate") (.vint 24000),
               dictGetD d (pys "num_channels") (.vint 1),
               dictGetD d (pys "track_name") .vnone⟩
  | .vbool false => .asBool false
  | _ => .asBool true

/-- The `text_input` selection (profile_resolver.py 396-403). -/
def roomTextInput (rd : PyDict) : OrBool TextInputOptions :=
  match dictGetD rd (pys "text_input") .vnone with
  | .vdict d => .asOpts ⟨dictGetD d (pys "enabled") (.vbool true)⟩
  | .vbool false => .asBool false
  | _ => .asBool true

/-- The `text_output` selection (profile_resolver.py 405-414). -/
def roomTextOutput (rd : PyDict) : OrBool TextOutputOptions :=
  match dictGetD rd (pys "text_output") .vnone with
  | .vdict d =>
      .asOpts ⟨dictGetD d (pys "enabled") (.vbool true),
               dictGetD d (pys "sync_transcription") .vnone,
               dictGetD d (pys "transcription_speed_factor") (.vfloat (pys "1.0"))⟩
  | .vbool false => .asBool false
  | _ => .asBool true

/-- The `video_input` selection (profile_resolver.py 417-421): both a
dict and literal `True` yield a default `VideoInputOptions()`. -/
def roomVideoInput (rd : PyDict) : OrBool VideoInputOptions :=
  match dictGetD rd (pys "video_input") .vnone with
  | .vdict _ => .asOpts ⟨false⟩
  | .vbool true => .asOpts ⟨false⟩
  | _ => .asBool false

/-- The `RoomIOConfig` construction (profile_resolver.py 368-433);
`AttributeError` when `room_data` is not a dict. -/
def parseRoomOptions (v : PyVal) : Except PyErr RoomIOConfig :=
  match v with
  | .vdict rd =>
      .ok ⟨roomTextInput rd, roomAudioInput rd, roomVideoInput rd,
           roomAudioOutput rd, roomTextOutput rd,
           dictGetD rd (pys "participant_kinds") .vnone,
           dictGetD rd (pys "participant_identity") .vnone,
           dictGetD rd (pys "close_on_disconnect") (.vbool true),
           dictGetD rd (pys "delete_room_on_close") (.vbool false)⟩
  | _ => .error (.attributeError (pys "object has no attribute 'get'"))

/-- The `ConnectionOptions` construction (profile_resolver.py 447-449);
`AttributeError` when `conn_data` is not a dict. -/
def parseConnOptions (v : PyVal) : Except PyErr ConnectionOptions :=
  match v with
  | .vdict d => .ok ⟨dictGetD d (pys "max_unrecoverable_errors") (.vint 3)⟩
  | _ => .error (.attributeError (pys "object has no attribute 'get'"))

/-- `_build_profile_config` (profile_resolver.py 261-470): the top-level
fields are plain `.get` lookups with defaults (they cannot raise); the
preset-ref, limits, session-behavior, room and connection sections can
raise `AttributeError`/`TypeError`, which propagates to the caller. -/
def buildProfileConfig (fuel : Nat) (pd : PyDict) :
    Except PyErr AgentProfileConfig := do
  let llm ← parsePresetRef fuel (dictGetD pd (pys "llm_preset_ref") .vnone) (pys "gpt-5.1")
  let stt ← parsePresetRef fuel (dictGetD pd (pys "stt_preset_ref") .vnone) (pys "nova-3")
  let tts ← parsePresetRef fuel (dictGetD pd (pys "tts_preset_ref") .vnone) (pys "sonic-3")
  let realtime ← parsePresetRef fuel (dictGetD pd (pys "realtime_preset_ref") .vnone)
    (pys "amazon.nova-2-sonic-v1:0")
  let limits ← parseLimits fuel pd
  let behavior ← parseSessionBehavior (sectionDataOf pd (pys "session_behavior"))
  let room ← parseRoomOptions (sectionDataOf pd (pys "room_options"))
  let conn ← parseConnOptions (sectionDataOf pd (pys "conn_options"))
  .ok { profile_id := dictGetD pd (pys "profile_id") (.vstr (pys "default"))
        version := dictGetD pd (pys "version") (.vstr (pys "1"))
        tenant_id := dictGetD pd (pys "tenant_id") (.vstr (pys "default"))
        mode := dictGetD pd (pys "mode") (.vstr (pys "realtime"))
        system_prompt := dictGetD pd (pys "system_prompt")
          (.vstr (pys "You are a helpful assistant."))
        language := dictGetD pd (pys "language") (.vstr (pys "en"))
        llm_preset_ref := llm
        stt_preset_ref := stt
        tts_preset_ref := tts
        realtime_preset_ref := realtime
        tool_refs := dictGetD pd (pys "tool_refs") (.vlist [])
        limits := limits
        session_behavior := behavior
        room_options := room
        conn_options := conn
        created_at := dictGetD pd (pys "created_at") .vnone
        updated_at := dictGetD pd (pys "updated_at") .vnone
        status := dictGetD pd (pys "status") (.vstr (pys "active")) }

/-- `_get_default_profile_id` (profile_resolver.py 94-127) with the store
reply as an oracle: every raised error is caught by the blanket
`except`, yielding `None`; on a hit the pointer is
`item.get("profile_id", \x7b\x7d).get("S")` (a non-dict attribute value
raises `AttributeError`, also caught, yielding `None`). -/
def getDefaultProfileId (resp : StoreResp) : Option PyVal :=
  match resp with
  | .storeErr => none
  | .missing => none
  | .item it =>
      match dictGetD it (pys "profile_id") (.vdict []) with
      | .vdict d =>
          match dictGetD d (pys "S") .vnone with
          | .vnone => none
          | v => some v
      | _ => none

/-- `_get_latest_profile_version` (profile_resolver.py 130-163), the same
shape as `getDefaultProfileId` with attribute `latest_version`. -/
def getLatestProfileVersion (resp : StoreResp) : Option PyVal :=
  match resp with
  | .storeErr => none
  | .missing => none
  | .item it =>
      match dictGetD it (pys "latest_version") (.vdict []) with
      | .vdict d =>
          match dictGetD d (pys "S") .vnone with
          | .vnone => none
          | v => some v
      | _ => none

/-- `_fetch_profile` (profile_resolver.py 166-213): a miss or any raised
error yields `None` — here `_dynamodb_item_to_dict` runs inside the
`try`, so decode errors are swallowed too (unlike the tools-side fetch);
otherwise the decoded item. -/
def fetchProfile (fuel : Nat) (resp : StoreResp) : Option PyDict :=
  match resp with
  | .storeErr => none
  | .missing => none
  | .item it =>
      match ddbItemToDictP fuel it with
      | .ok pd => some pd
      | .error _ => none

/-- The `profile_id` in effect after Step 1 of `resolve_profile`. -/
def effectiveProfileId (pid : Option PyVal) (dp : StoreResp) : Option PyVal :=
  match pid with
  | some p => some p
  | none => getDefaultProfileId dp

/-- The `profile_version` in effect after Step 2 of `resolve_profile`. -/
def effectiveVersion (pver : Option PyVal) (lp : StoreResp) : Option PyVal :=
  match pver with
  | some v => some v
  | none => getLatestProfileVersion lp

/-- `resolve_profile` (profile_resolver.py 54-91), with the three store
reads abstracted as per-key oracle replies `dp` (default-profile
pointer), `lp` (latest-version pointer) and `pr` (the profile record).
Misses and store errors fall back to `get_default_profile()`; errors
raised by `_build_profile_config` propagate (there is no `try` around
Step 4). -/
def resolveProfile (fuel : Nat) (pid pver : Option PyVal)
    (dp lp pr : StoreResp) : Except PyErr AgentProfileConfig :=
  match effectiveProfileId pid dp with
  | none => .ok getDefaultProfile
  | some _ =>
      match effectiveVersion pver lp with
      | none => .ok getDefaultProfile
      | some _ =>
          match fetchProfile fuel pr with
          | none => .ok getDefaultProfile
          | some pd => buildProfileConfig fuel pd

/-- Well-formedness of one raw preset-ref value: a dict none of whose
values is an `S`/`N`/`BOOL`/`M` type descriptor (the half-decoded
DynamoDB branch of `_parse_preset_ref` is excluded), or any falsy
non-dict value. -/
def wfPresetRaw (raw : PyVal) : Bool :=
  match raw with
  | .vdict d =>
      !(d.any fun kv => isDescriptorDict [pys "S", pys "N", pys "BOOL", pys "M"] kv.2)
  | _ => !pyTruthy raw

/-- Well-formedness of the `limits` section: absent, non-dict (replaced
by an empty dict) or a dict with no `S`/`N`/`BOOL` descriptor values. -/
def wfLimits (pd : PyDict) : Bool :=
  match dictGetD pd (pys "limits") (.vdict []) with
  | .vdict raw =>
      !(raw.any fun kv => isDescriptorDict [pys "S", pys "N", pys "BOOL"] kv.2)
  | _ => true

/-- Well-formedness of a JSON-or-dict section: its raw-section value
resolves to a dict. -/
def wfSection (pd : PyDict) (key : PyStr) : Bool :=
  match sectionDataOf pd key with
  | .vdict _ => true
  | _ => false

/-- Decidable well-formedness of decoded profile data, sufficient for
`_build_profile_config` to return without raising. -/
def wellFormedProfileData (pd : PyDict) : Bool :=
  wfPresetRaw (dictGetD pd (pys "llm_preset_ref") .vnone) &&
  wfPresetRaw (dictGetD pd (pys "stt_preset_ref") .vnone) &&
  wfPresetRaw (dictGetD pd (pys "tts_preset_ref") .vnone) &&
  wfPresetRaw (dictGetD pd (pys "realtime_preset_ref") .vnone) &&
  wfLimits pd &&
  wfSection pd (pys "session_behavior") &&
  wfSection pd (pys "room_options") &&
  wfSection pd (pys "conn_options")

/-! ## Helper lemmas -/

theorem isPrefixOf_drop_iff {p q m : PyStr} (hp : p.isPrefixOf m = true) :
    q.isPrefixOf (m.drop p.length) = true ↔ (p ++ q).isPrefixOf m = true := by
  rw [List.isPrefixOf_iff_prefix] at hp
  obtain ⟨t, rfl⟩ := hp
  simp [List.isPrefixOf_iff_prefix, List.drop_left]

theorem length_filter_lt_of_mem_key {V : Type} (kw : Kwargs V) (bad : PyStr)
    (h : bad ∈ kw.map Prod.fst) :
    (kw.filter (fun p => p.1 ≠ bad)).length < kw.length := by
  induction kw with
  | nil => simp at h
  | cons hd tl ih =>
      rw [List.filter_cons]
      by_cases hhd : hd.1 = bad
      · have hle := List.length_filter_le (fun p => decide (p.1 ≠ bad)) tl
        have hdec : (decide (hd.1 ≠ bad)) = false := by simp [hhd]
        rw [hdec]
        simp only [Bool.false_eq_true, if_false, List.length_cons]
        omega
      · have hmem : bad ∈ tl.map Prod.fst := by
          simp only [List.map_cons, List.mem_cons] at h
          rcases h with h0 | h0
          · exact absurd h0.symm hhd
          · exact h0
        have hlt := ih hmem
        have hdec : (decide (hd.1 ≠ bad)) = true := by simp [hhd]
        rw [hdec]
        simp only [if_true, List.length_cons]
        omega

/-! ## C10 — the built-in `wait` tool clamps to `[0, 30]` -/

/-- C10: for every integer argument, the built-in `wait` tool sleeps for
exactly `max(0, min(seconds, 30))` seconds and returns a message reporting
that clamped value; it never waits longer than 30 seconds and never attempts
a negative wait. -/
theorem wait_clamps_sleep_and_message (seconds : Int) :
    waitSleepSeconds seconds = max 0 (min seconds 30) ∧
    waitMessage seconds =
      pys "Waited " ++ (toString (max 0 (min seconds 30))).data ++ pys " second(s)" ∧
    waitSleepSeconds seconds ≤ 30 ∧ 0 ≤ waitSleepSeconds seconds := by
  refine ⟨?_, rfl, ?_, ?_⟩ <;>
    · unfold waitSleepSeconds waitClamped
      split <;> omega

/-- C10 witness: concrete evaluations at `seconds = -5` and `seconds = 100`. -/
theorem wait_clamps_sleep_and_message_witness :
    waitSleepSeconds (-5) = 0 ∧ waitSleepSeconds 100 = 30 ∧
    waitMessage 100 = pys "Waited 30 second(s)" := by
  refine ⟨?_, ?_, ?_⟩ <;> rfl

/-! ## C8 — model-id normalization and doubled provider segments -/

/-- C8 counterexample: normalization strips only ONE leading provider
segment, so the model string `"openai-openai-gpt"` under provider
`"openai"` produces exactly the doubled segment `"openai/openai-gpt"`
that the claim says can never occur. -/
theorem normalize_doubled_segment_counterexample :
    buildModelString (pys "openai") (pys "openai-openai-gpt")
      = pys "openai/openai-gpt" := by decide

/-- C8 amended: normalization strips exactly one leading `"<provider>-"` or
`"<provider>/"` segment before re-prefixing; consequently, for every model
string that does not itself begin with two consecutive provider segments,
the normalized id does not start with `"<provider>-"` or `"<provider>/"`,
so `"<provider>/<normalized-id>"` contains no doubled provider segment. -/
theorem normalize_no_doubled_segment (modelId provider : PyStr)
    (h1 : (provider ++ [Char.ofNat 45] ++ provider ++ [Char.ofNat 45]).isPrefixOf modelId = false)
    (h2 : (provider ++ [Char.ofNat 45] ++ provider ++ [Char.ofNat 47]).isPrefixOf modelId = false)
    (h3 : (provider ++ [Char.ofNat 47] ++ provider ++ [Char.ofNat 45]).isPrefixOf modelId = false)
    (h4 : (provider ++ [Char.ofNat 47] ++ provider ++ [Char.ofNat 47]).isPrefixOf modelId = false) :
    (provider ++ [Char.ofNat 45]).isPrefixOf
        (normalizeProviderModelId modelId provider) = false ∧
    (provider ++ [Char.ofNat 47]).isPrefixOf
        (normalizeProviderModelId modelId provider) = false := by
  unfold normalizeProviderModelId
  by_cases hd : (provider ++ [Char.ofNat 45]).isPrefixOf modelId = true
  · rw [if_pos hd]
    constructor
    · rw [← Bool.not_eq_true]
      intro hcon
      rw [isPrefixOf_drop_iff hd] at hcon
      simp only [List.append_assoc] at hcon h1
      rw [h1] at hcon
      exact Bool.false_ne_true hcon
    · rw [← Bool.not_eq_true]
      intro hcon
      rw [isPrefixOf_drop_iff hd] at hcon
      simp only [List.append_assoc] at hcon h2
      rw [h2] at hcon
      exact Bool.false_ne_true hcon
  · rw [if_neg hd]
    by_cases hs : (provider ++ [Char.ofNat 47]).isPrefixOf modelId = true
    · rw [if_pos hs]
      constructor
      · rw [← Bool.not_eq_true]
        intro hcon
        rw [isPrefixOf_drop_iff hs] at hcon
        simp only [List.append_assoc] at hcon h3
        rw [h3] at hcon
        exact Bool.false_ne_true hcon
      · rw [← Bool.not_eq_true]
        intro hcon
        rw [isPrefixOf_drop_iff hs] at hcon
        simp only [List.append_assoc] at hcon h4
        rw [h4] at hcon
        exact Bool.false_ne_true hcon
    · rw [if_neg hs]
      exact ⟨Bool.eq_false_iff.mpr hd, Bool.eq_false_iff.mpr hs⟩

/-- C8 witness: the amended theorem applied at the concrete model id
`"openai-gpt-4"` and provider `"openai"`. -/
theorem normalize_no_doubled_segment_witness :
    (pys "openai" ++ [Char.ofNat 45] ++ pys "openai" ++ [Char.ofNat 45]).isPrefixOf
        (pys "openai-gpt-4") = false ∧
    ((pys "openai" ++ [Char.ofNat 45]).isPrefixOf
        (normalizeProviderModelId (pys "openai-gpt-4") (pys "openai")) = false ∧
     (pys "openai" ++ [Char.ofNat 47]).isPrefixOf
        (normalizeProviderModelId (pys "openai-gpt-4") (pys "openai")) = false) :=
  ⟨by decide,
   normalize_no_doubled_segment (pys "openai-gpt-4") (pys "openai")
     (by decide) (by decide) (by decide) (by decide)⟩

/-! ## C6 — the limit enforcer's trigger is one-shot -/

theorem onFTE_triggered_mono (limits : LimitsNum) (st : LimitState)
    (now : ℚ) (c : Nat) (h : st.triggered = true) :
    (onFunctionToolsExecuted limits st now c).1.triggered = true ∧
    (onFunctionToolsExecuted limits st now c).2 = false := by
  obtain ⟨mtc, mrate⟩ := limits
  simp only [onFunctionToolsExecuted, triggerShutdown]
  cases mtc <;> cases mrate <;> split_ifs <;> simp_all

theorem onFTE_issued_triggered (limits : LimitsNum) (st : LimitState)
    (now : ℚ) (c : Nat) (h : (onFunctionToolsExecuted limits st now c).2 = true) :
    (onFunctionToolsExecuted limits st now c).1.triggered = true := by
  obtain ⟨mtc, mrate⟩ := limits
  simp only [onFunctionToolsExecuted, triggerShutdown] at h ⊢
  cases mtc <;> cases mrate <;> split_ifs at h ⊢ <;> simp_all

theorem runLimitEvents_count_le (limits : LimitsNum) (evs : List (ℚ × Nat)) :
    ∀ st : LimitState,
      (runLimitEvents limits st evs).2 ≤ if st.triggered then 0 else 1 := by
  induction evs with
  | nil => intro st; simp [runLimitEvents]
  | cons ev rest ih =>
      intro st
      obtain ⟨now, c⟩ := ev
      simp only [runLimitEvents]
      by_cases htr : st.triggered = true
      · obtain ⟨h1, h2⟩ := onFTE_triggered_mono limits st now c htr
        have := ih (onFunctionToolsExecuted limits st now c).1
        simp [h1, h2, htr] at this ⊢
        omega
      · simp only [Bool.not_eq_true] at htr
        by_cases hiss : (onFunctionToolsExecuted limits st now c).2 = true
        · have h1 := onFTE_issued_triggered limits st now c hiss
          have := ih (onFunctionToolsExecuted limits st now c).1
          simp [h1, hiss, htr] at this ⊢
          omega
        · simp only [Bool.not_eq_true] at hiss
          have := ih (onFunctionToolsExecuted limits st now c).1
          simp only [hiss, if_false, htr, Bool.false_eq_true, Nat.zero_add]
          split at this <;> omega

/-- C6: the session limit enforcer's trigger is one-shot and its TRIGGERED
state terminal: (1) over every sequence of tool-execution event batches, at
most one shutdown is issued; (2) with `max_tool_calls_per_minute = 10`,
eleven single-call events within 60 seconds issue exactly one shutdown;
(3) a twelfth event after the trigger does not issue a second shutdown. -/
theorem limit_enforcer_one_shot :
    (∀ (limits : LimitsNum) (evs : List (ℚ × Nat)),
        (runLimitEvents limits initialLimitState evs).2 ≤ 1) ∧
    (runLimitEvents rateLimit10 initialLimitState elevenCalls).2 = 1 ∧
    (runLimitEvents rateLimit10 initialLimitState
        (elevenCalls ++ [(11, 1)])).2 = 1 := by
  refine ⟨fun limits evs => ?_,
    by norm_num [runLimitEvents, onFunctionToolsExecuted, evictOldTimestamps,
      triggerShutdown, elevenCalls, rateLimit10, initialLimitState,
      List.dropWhile, List.replicate],
    by norm_num [runLimitEvents, onFunctionToolsExecuted, evictOldTimestamps,
      triggerShutdown, elevenCalls, rateLimit10, initialLimitState,
      List.dropWhile, List.replicate]⟩
  have := runLimitEvents_count_le limits evs initialLimitState
  simpa [initialLimitState] using this

/-! ## C7 — the constructor-adaptation retry loop terminates -/

theorem constructRetryStep_again_lt {V R : Type}
    (factory : Kwargs V → Except PyErr R) (kw kw2 : Kwargs V) (msg : PyStr)
    (h : constructRetryStep factory kw = .again kw2 msg) :
    kw2.length < kw.length := by
  unfold constructRetryStep at h
  split at h
  · cases h
  · split at h
    · split at h
      · cases h
      · split at h
        · split at h
          · cases h
          · rename_i bad hfind hmem hemp
            cases h
            exact length_filter_lt_of_mem_key kw bad hmem
        · cases h
    · cases h

theorem constructRetryLoop_fuel_succ {V R : Type}
    (factory : Kwargs V → Except PyErr R) :
    ∀ (fuel : Nat) (kw : Kwargs V) (res : Except PyErr R),
      constructRetryLoop factory fuel kw = some res →
      constructRetryLoop factory (fuel + 1) kw = some res := by
  intro fuel
  induction fuel with
  | zero => intro kw res h; exact Option.noConfusion h
  | succ n ih =>
      intro kw res h
      unfold constructRetryLoop at h ⊢
      cases hs : constructRetryStep factory kw
      · rw [hs] at h; exact h
      · rw [hs] at h; exact ih _ _ h

theorem constructRetryLoop_terminates {V R : Type}
    (factory : Kwargs V → Except PyErr R) :
    ∀ (fuel : Nat) (kw : Kwargs V), kw.length < fuel →
      ∃ res, constructRetryLoop factory fuel kw = some res := by
  intro fuel
  induction fuel with
  | zero => intro kw h; omega
  | succ n ih =>
      intro kw hlen
      unfold constructRetryLoop
      cases hs : constructRetryStep factory kw with
      | done res => exact ⟨res, rfl⟩
      | again kw2 msg =>
          have hlt := constructRetryStep_again_lt factory kw kw2 msg hs
          obtain ⟨res, hres⟩ := ih kw2 (by omega)
          exact ⟨res, hres⟩

/-- C7: for every keyword-argument set and every constructor behaviour, the
constructor-adaptation of `_construct_with_supported_kwargs` — signature
filtering followed by the `while True` remove-one-kwarg-and-retry loop —
terminates: the loop halts within `|filtered kwargs| + 1` iterations (it
never runs out of fuel) and its result is stable under any additional fuel,
i.e. construction either succeeds or an error propagates to the caller. -/
theorem construct_adaptation_terminates {V R : Type} (sig : Option PySig)
    (factory : Kwargs V → Except PyErr R) (kw : Kwargs V) :
    ∃ res : Except PyErr R,
      constructWithSupportedKwargs sig factory kw = some res ∧
      ∀ extra : Nat,
        constructRetryLoop factory ((filterBySig sig kw).length + 1 + extra)
          (filterBySig sig kw) = some res := by
  obtain ⟨res, hres⟩ :=
    constructRetryLoop_terminates factory ((filterBySig sig kw).length + 1)
      (filterBySig sig kw) (Nat.lt_succ_self _)
  refine ⟨res, hres, fun extra => ?_⟩
  induction extra with
  | zero => exact hres
  | succ n ihe => exact constructRetryLoop_fuel_succ factory _ _ _ ihe

/-! ## C9 — tagged numeric decoding -/

/-- C9 counterexample: the repository does not decode through a single
decoder, and numeric elements nested directly inside an `L` list do NOT
decode to numbers under the profile/session decoder: it returns the raw
string `"4096"` (via the `v.get("S") or v.get("N") or ...` chain), while
the tools decoder returns the integer `4096` for the same item. -/
theorem decoder_list_numeric_counterexample :
    ddbItemToDictP 10
        [(pys "xs", .vdict [(pys "L", .vlist [.vdict [(pys "N", .vstr (pys "4096"))]])])]
      = .ok [(pys "xs", .vlist [.vstr (pys "4096")])] ∧
    PyVal.vstr (pys "4096") ≠ PyVal.vint 4096 ∧
    ddbItemToDictT 10
        [(pys "xs", .vdict [(pys "L", .vlist [.vdict [(pys "N", .vstr (pys "4096"))]])])]
      = .ok [(pys "xs", .vlist [.vint 4096])] :=
  ⟨rfl, fun h => PyVal.noConfusion h, rfl⟩

/-- C9 amended: there are two distinct tagged-value decoders (tools.py
versus profile_resolver/session_builder).  Both route top-level and
map-nested `N` tags through the same numeric rule (`decodeNumStr`):
a parseable numeric string without a decimal point decodes to an integer,
one with a decimal point decodes to a float — in particular
`{"N":"4096"} ↦ 4096` and `{"N":"0.7"} ↦ 0.7`.  For numeric elements
directly inside `L` lists, only the tools decoder applies the numeric
rule; the profile/session decoder returns the raw numeric string. -/
theorem decoder_numeric_amended :
    (∀ (s : PyStr) (n : Int), pyIntParse s = some n →
        s.any (fun c => c = Char.ofNat 46) = false →
        decodeNumStr s = .vint n) ∧
    (∀ s : PyStr, s.any (fun c => c = Char.ofNat 46) = true →
        pyFloatParses s = true → decodeNumStr s = .vfloat s) ∧
    (∀ (fuel : Nat) (k s : PyStr),
        ddbItemToDictP (fuel + 1) [(k, .vdict [(pys "N", .vstr s)])]
          = .ok [(k, decodeNumStr s)]) ∧
    (∀ (fuel : Nat) (k s : PyStr),
        ddbItemToDictT (fuel + 1) [(k, .vdict [(pys "N", .vstr s)])]
          = .ok [(k, decodeNumStr s)]) ∧
    (∀ (fuel : Nat) (k k2 s : PyStr),
        ddbItemToDictP (fuel + 2)
            [(k, .vdict [(pys "M", .vdict [(k2, .vdict [(pys "N", .vstr s)])])])]
          = .ok [(k, .vdict [(k2, decodeNumStr s)])]) ∧
    (∀ (s : PyStr) (n : Int), pyIntParse s = some n →
        s.any (fun c => c = Char.ofNat 46) = false →
        decodeNumStrStrict (.vstr s) = .ok (.vint n)) ∧
    (∀ (fuel : Nat) (k s : PyStr), s ≠ [] →
        ddbItemToDictP (fuel + 1)
            [(k, .vdict [(pys "L", .vlist [.vdict [(pys "N", .vstr s)]])])]
          = .ok [(k, .vlist [.vstr s])]) ∧
    ddbItemToDictP 10 [(pys "cfg", .vdict [(pys "N", .vstr (pys "4096"))])]
      = .ok [(pys "cfg", .vint 4096)] ∧
    ddbItemToDictP 10 [(pys "cfg", .vdict [(pys "N", .vstr (pys "0.7"))])]
      = .ok [(pys "cfg", .vfloat (pys "0.7"))] ∧
    ddbItemToDictT 10 [(pys "cfg", .vdict [(pys "N", .vstr (pys "4096"))])]
      = .ok [(pys "cfg", .vint 4096)] ∧
    ddbItemToDictT 10 [(pys "cfg", .vdict [(pys "N", .vstr (pys "0.7"))])]
      = .ok [(pys "cfg", .vfloat (pys "0.7"))] := by
  refine ⟨?_, ?_, fun fuel k s => rfl, fun fuel k s => rfl, fun fuel k k2 s => rfl,
    ?_, ?_, rfl, rfl, rfl, rfl⟩
  · intro s n h1 h2
    simp only [decodeNumStr, h2, Bool.false_eq_true, if_false, h1]
  · intro s h1 h2
    simp only [decodeNumStr, h1, if_true, h2]
  · intro s n h1 h2
    simp only [decodeNumStrStrict, h2, Bool.false_eq_true, if_false, h1]
  · intro fuel k s hs
    obtain ⟨c, cs, rfl⟩ : ∃ c cs, s = c :: cs := by
      cases s with
      | nil => exact absurd rfl hs
      | cons c cs => exact ⟨c, cs, rfl⟩
    rfl

/-- C9 witness: the hypothesis-bearing parts of the amended decoder theorem
applied at concrete inputs. -/
theorem decoder_numeric_amended_witness :
    pyIntParse (pys "4096") = some 4096 ∧
    (pys "4096").any (fun c => c = Char.ofNat 46) = false ∧
    decodeNumStr (pys "4096") = .vint 4096 ∧
    decodeNumStrStrict (.vstr (pys "4096")) = .ok (.vint 4096) ∧
    (pys "0.7").any (fun c => c = Char.ofNat 46) = true ∧
    pyFloatParses (pys "0.7") = true ∧
    decodeNumStr (pys "0.7") = .vfloat (pys "0.7") ∧
    ddbItemToDictP 5
        [(pys "xs", .vdict [(pys "L", .vlist [.vdict [(pys "N", .vstr (pys "7"))]])])]
      = .ok [(pys "xs", .vlist [.vstr (pys "7")])] :=
  ⟨by decide, by decide,
   decoder_numeric_amended.1 (pys "4096") 4096 (by decide) (by decide),
   decoder_numeric_amended.2.2.2.2.2.1 (pys "4096") 4096 (by decide) (by decide),
   by decide, by decide,
   decoder_numeric_amended.2.1 (pys "0.7") (by decide) (by decide),
   decoder_numeric_amended.2.2.2.2.2.2.1 4 (pys "xs") (pys "7") (by decide)⟩

/-! ## C2 — non-https HTTP tool definitions are rejected and never compiled -/

theorem except_bind_ok {ε α β : Type} {m : Except ε α} {f : α → Except ε β} {r : β}
    (h : (m >>= f) = .ok r) : ∃ a, m = .ok a ∧ f a = .ok r := by
  cases m with
  | error e => exact absurd h (by simp [Bind.bind, Except.bind])
  | ok a => exact ⟨a, rfl, by simpa [Bind.bind, Except.bind] using h⟩

theorem rstripSlash_shape (pre : PyStr) (x : Char) (t : PyStr)
    (hx : ¬ x = Char.ofNat 47) :
    ∃ t2, rstripSlash (pre ++ x :: t) = pre ++ x :: t2 := by
  have hA : ∃ B, List.dropWhile (fun c => decide (c = Char.ofNat 47)) (t.reverse ++ [x])
      = B ++ [x] := by
    rw [List.dropWhile_append]
    by_cases hE : (List.dropWhile (fun c => decide (c = Char.ofNat 47)) t.reverse).isEmpty = true
    · refine ⟨[], ?_⟩
      simp [hE, List.dropWhile, hx]
    · refine ⟨List.dropWhile (fun c => decide (c = Char.ofNat 47)) t.reverse, ?_⟩
      simp [hE]
  obtain ⟨B, hB⟩ := hA
  refine ⟨B.reverse, ?_⟩
  unfold rstripSlash
  rw [List.reverse_append, List.reverse_cons, List.dropWhile_append, hB]
  have hne : ((B ++ [x]).isEmpty) = false := by simp
  rw [hne]
  simp

theorem https_netloc_rstrip (B : PyStr)
    (hp : (pys "https://").isPrefixOf B = true)
    (hn : urlparseNetloc B ≠ []) :
    (pys "https://").isPrefixOf (rstripSlash B) = true ∧
    urlparseNetloc (rstripSlash B) ≠ [] := by
  rw [List.isPrefixOf_iff_prefix] at hp
  obtain ⟨rest, hrest⟩ := hp
  subst hrest
  cases rest with
  | nil =>
      exact absurd (by decide : urlparseNetloc (pys "https://" ++ []) = []) hn
  | cons x t =>
      have hdrop : (pys "https://" ++ x :: t).drop 8 = x :: t :=
        List.drop_left' (by decide)
      by_cases hpx : (x ≠ Char.ofNat 47 ∧ x ≠ '?' ∧ x ≠ Char.ofNat 35)
      · obtain ⟨t2, ht2⟩ := rstripSlash_shape (pys "https://") x t hpx.1
        rw [ht2]
        have hd2 : (pys "https://" ++ x :: t2).drop 8 = x :: t2 :=
          List.drop_left' (by decide)
        constructor
        · rw [List.isPrefixOf_iff_prefix]
          exact ⟨x :: t2, rfl⟩
        · unfold urlparseNetloc
          rw [hd2, List.takeWhile_cons]
          simp [hpx.1, hpx.2.1, hpx.2.2]
      · exfalso
        apply hn
        unfold urlparseNetloc
        rw [hdrop, List.takeWhile_cons]
        simp only [decide_eq_true_eq]
        rw [if_neg hpx]

theorem validate_ok_some_https (fuel : Nat) (raw : PyDict) (d : HttpToolDefinition)
    (h : validateHttpToolDefinition fuel raw = .ok (some d)) :
    (pys "https://").isPrefixOf d.base_url = true ∧ urlparseNetloc d.base_url ≠ [] := by
  unfold validateHttpToolDefinition at h
  by_cases hp : (pys "https://").isPrefixOf
      (stripWs (pyStrOf fuel (dictGetD raw (pys "base_url") (.vstr [])))) = true
  · by_cases hn : urlparseNetloc
        (stripWs (pyStrOf fuel (dictGetD raw (pys "base_url") (.vstr [])))) = []
    · simp only [hp, hn] at h
      simp [pure, Except.pure] at h
    · simp only [hp] at h
      rw [if_neg (by simp)] at h
      rw [if_neg (by simp [List.isEmpty_iff, hn])] at h
      obtain ⟨aqk, _, h⟩ := except_bind_ok h
      obtain ⟨hsp, _, h⟩ := except_bind_ok h
      obtain ⟨hda, _, h⟩ := except_bind_ok h
      obtain ⟨tms, _, h⟩ := except_bind_ok h
      obtain ⟨mrb, _, h⟩ := except_bind_ok h
      obtain ⟨ral, _, h⟩ := except_bind_ok h
      simp only [pure, Except.pure, Except.ok.injEq, Option.some.injEq] at h
      rw [← h]
      exact https_netloc_rstrip _ hp hn
  · rw [Bool.not_eq_true] at hp
    rw [if_pos (by simp [hp])] at h
    simp [pure, Except.pure] at h

theorem validate_rejects_nonhttps (fuel : Nat) (raw : PyDict)
    (h : (pys "https://").isPrefixOf
        (stripWs (pyStrOf fuel (dictGetD raw (pys "base_url") (.vstr [])))) = false
      ∨ urlparseNetloc
        (stripWs (pyStrOf fuel (dictGetD raw (pys "base_url") (.vstr [])))) = []) :
    validateHttpToolDefinition fuel raw = .ok none := by
  unfold validateHttpToolDefinition
  rcases h with h | h
  · rw [if_pos (by simp [h])]
    rfl
  · by_cases hp : (pys "https://").isPrefixOf
        (stripWs (pyStrOf fuel (dictGetD raw (pys "base_url") (.vstr [])))) = true
    · rw [if_neg (by simp [hp])]
      rw [if_pos (by simp [List.isEmpty_iff, h])]
      rfl
    · rw [Bool.not_eq_true] at hp
      rw [if_pos (by simp [hp])]
      rfl

theorem fetch_ok_some_https (fuel : Nat) (ref : HttpToolRef) (resp : StoreResp)
    (d : HttpToolDefinition)
    (h : fetchHttpToolDefinition fuel ref resp = .ok (some d)) :
    (pys "https://").isPrefixOf d.base_url = true ∧ urlparseNetloc d.base_url ≠ [] := by
  cases resp with
  | storeErr => simp [fetchHttpToolDefinition] at h
  | missing => simp [fetchHttpToolDefinition] at h
  | item i =>
      simp only [fetchHttpToolDefinition] at h
      by_cases hi : i.isEmpty = true
      · rw [if_pos hi] at h
        simp at h
      · rw [if_neg hi] at h
        obtain ⟨parsed, _, h⟩ := except_bind_ok h
        exact validate_ok_some_https fuel _ d h

theorem resolveTools_http_mem (fuel : Nat) (store : HttpToolRef → StoreResp) :
    ∀ (ids : List PyStr) (res : List FunctionTool) (d : HttpToolDefinition),
      resolveTools fuel store ids = .ok res → FunctionTool.http d ∈ res →
      (pys "https://").isPrefixOf d.base_url = true ∧ urlparseNetloc d.base_url ≠ [] := by
  intro ids
  induction ids with
  | nil =>
      intro res d h hmem
      unfold resolveTools at h
      obtain rfl : ([] : List FunctionTool) = res := Except.ok.inj h
      simp at hmem
  | cons tid rest ih =>
      intro res d h hmem
      unfold resolveTools at h
      by_cases hb : tid ∈ builtinRegistryNames
      · rw [if_pos hb] at h
        obtain ⟨others, hothers, h⟩ := except_bind_ok h
        simp only [pure, Except.pure, Except.ok.injEq] at h
        subst h
        cases hmem with
        | tail _ hm => exact ih others d hothers hm
      · rw [if_neg hb] at h
        cases hr : parseHttpToolRef tid with
        | some ref =>
            rw [hr] at h
            obtain ⟨defnOpt, hfetch, h⟩ := except_bind_ok h
            cases defnOpt with
            | none => exact ih res d h hmem
            | some dd =>
                obtain ⟨others, hothers, h⟩ := except_bind_ok h
                simp only [pure, Except.pure, Except.ok.injEq] at h
                subst h
                cases hmem with
                | head => exact fetch_ok_some_https fuel ref (store ref) d hfetch
                | tail _ hm => exact ih others d hothers hm
        | none =>
            rw [hr] at h
            exact ih res d h hmem

/-- C2: an HTTP tool definition whose `base_url` does not begin with
`"https://"` (or whose host parses empty) is rejected by
`_validate_http_tool_definition` (`None` is returned, regardless of every
other field), and consequently `resolve_tools` never includes a compiled
HTTP tool with a non-https or empty-host base URL: every compiled HTTP
tool in its result carries an `https://` base URL with a nonempty host. -/
theorem nonhttps_rejected_and_never_compiled :
    (∀ (fuel : Nat) (raw : PyDict),
      ((pys "https://").isPrefixOf
          (stripWs (pyStrOf fuel (dictGetD raw (pys "base_url") (.vstr [])))) = false ∨
        urlparseNetloc
          (stripWs (pyStrOf fuel (dictGetD raw (pys "base_url") (.vstr [])))) = []) →
      validateHttpToolDefinition fuel raw = .ok none) ∧
    (∀ (fuel : Nat) (store : HttpToolRef → StoreResp) (ids : List PyStr)
        (res : List FunctionTool) (d : HttpToolDefinition),
      resolveTools fuel store ids = .ok res → FunctionTool.http d ∈ res →
      (pys "https://").isPrefixOf d.base_url = true ∧ urlparseNetloc d.base_url ≠ []) :=
  ⟨validate_rejects_nonhttps,
   fun fuel store ids res d h hm => resolveTools_http_mem fuel store ids res d h hm⟩

/-- C2 witness: a concrete `http://` record is rejected outright, and the
membership half applied to a concrete store and tool list. -/
theorem nonhttps_rejected_and_never_compiled_witness :
    validateHttpToolDefinition 10
        [(pys "base_url", .vstr (pys "http://api.example.com"))] = .ok none ∧
    ((pys "https://").isPrefixOf exampleHttpDefn.base_url = true ∧
      urlparseNetloc exampleHttpDefn.base_url ≠ []) :=
  ⟨nonhttps_rejected_and_never_compiled.1 10
      [(pys "base_url", .vstr (pys "http://api.example.com"))] (by decide),
   nonhttps_rejected_and_never_compiled.2 10 exampleStore [pys "http:weather"]
      [FunctionTool.http exampleHttpDefn] exampleHttpDefn (by rfl)
      (by exact List.mem_singleton.mpr rfl)⟩

/-! ## C5 — `_http_tool` never raises into the caller -/

theorem renderPathGo_error_valueError (fuel : Nat) (params : PyDict) :
    ∀ (keys : List PyStr) (rendered : PyStr) (e : PyErr),
      renderPathGo fuel params keys rendered = .error e →
      ∃ m, e = .valueError m := by
  intro keys
  induction keys with
  | nil =>
      intro rendered e h
      simp [renderPathGo] at h
  | cons key rest ih =>
      intro rendered e h
      unfold renderPathGo at h
      cases hk : dictGet params key with
      | none =>
          rw [hk] at h
          exact ⟨_, (Except.error.inj h).symm⟩
      | some v =>
          rw [hk] at h
          exact ih _ e h

/-- C5: for every compiled HTTP tool definition, every caller-supplied
argument quadruple and every transport behaviour, invoking the tool never
raises into the caller: the run always yields `.ok` — argument-validation
failures (bad JSON, non-object arguments, missing path parameters,
disallowed query or header keys) come back as `.errText`, and every
transport exception is caught and returned as a textual
`Request failed: ...` result. -/
theorem http_tool_never_raises (fuel : Nat) (defn : HttpToolDefinition)
    (p q b hd : PyVal) (net : NetOracle) :
    ∃ r : ToolResult, httpToolRun fuel defn p q b hd net = .ok r := by
  cases hrun : httpToolRun fuel defn p q b hd net with
  | ok r => exact ⟨r, rfl⟩
  | error e =>
      exfalso
      unfold httpToolRun at hrun
      cases hpp : parseObjectArg false (pys "path_params_json") p with
      | error e2 => simp only [hpp] at hrun; exact Except.noConfusion hrun
      | ok path_params =>
      simp only [hpp] at hrun
      cases hq : parseObjectArg true (pys "query_json") q with
      | error e2 => simp only [hq] at hrun; exact Except.noConfusion hrun
      | ok query0 =>
      simp only [hq] at hrun
      cases hh : parseObjectArg false (pys "headers_json") hd with
      | error e2 => simp only [hh] at hrun; exact Except.noConfusion hrun
      | ok headers =>
      simp only [hh] at hrun
      cases hb : parseObjectArg false (pys "body_json") b with
      | error e2 => simp only [hb] at hrun; exact Except.noConfusion hrun
      | ok body =>
      simp only [hb] at hrun
      cases hren : renderPath fuel defn.path_template path_params with
      | error e2 =>
          unfold renderPath at hren
          obtain ⟨m, rfl⟩ :=
            renderPathGo_error_valueError fuel path_params _ _ e2 hren
          simp only [renderPath, hren] at hrun
          exact Except.noConfusion hrun
      | ok path =>
          simp only [hren] at hrun
          exact Except.noConfusion hrun

/-! ## C4 — empty dynamic-header allow-list means static headers only -/

theorem httpToolFinish_attempted (fuel : Nat) (defn : HttpToolDefinition)
    (path : PyStr) (query body dyn : PyDict) (net : NetOracle) :
    ∃ t, httpToolFinish fuel defn path query body dyn net
      = .attempted (mkHttpRequest fuel defn path query body dyn) t := by
  unfold httpToolFinish
  cases net (mkHttpRequest fuel defn path query body dyn) with
  | error err => exact ⟨_, rfl⟩
  | ok sp => exact ⟨_, rfl⟩

theorem run_attempted_req (fuel : Nat) (defn : HttpToolDefinition)
    (hall : defn.headers_dynamic_allowlist = [])
    (p q b h : PyVal) (net : NetOracle) (r : HttpRequest) (t : PyStr)
    (hr : httpToolRun fuel defn p q b h net = .ok (.attempted r t)) :
    ∃ (path_params query0 body : PyDict) (path : PyStr),
      parseObjectArg false (pys "path_params_json") p = .ok path_params ∧
      parseObjectArg true (pys "query_json") q = .ok query0 ∧
      parseObjectArg false (pys "body_json") b = .ok body ∧
      renderPath fuel defn.path_template path_params = .ok path ∧
      r = mkHttpRequest fuel defn path (aliasCurrentWeather query0) body [] := by
  unfold httpToolRun at hr
  cases hpp : parseObjectArg false (pys "path_params_json") p with
  | error e => simp only [hpp] at hr; exact ToolResult.noConfusion (Except.ok.inj hr)
  | ok path_params =>
  simp only [hpp] at hr
  cases hq : parseObjectArg true (pys "query_json") q with
  | error e => simp only [hq] at hr; exact ToolResult.noConfusion (Except.ok.inj hr)
  | ok query0 =>
  simp only [hq] at hr
  cases hh : parseObjectArg false (pys "headers_json") h with
  | error e => simp only [hh] at hr; exact ToolResult.noConfusion (Except.ok.inj hr)
  | ok headers =>
  simp only [hh] at hr
  cases hb : parseObjectArg false (pys "body_json") b with
  | error e => simp only [hb] at hr; exact ToolResult.noConfusion (Except.ok.inj hr)
  | ok body =>
  simp only [hb] at hr
  cases hren : renderPath fuel defn.path_template path_params with
  | error e =>
      simp only [hren] at hr
      cases e with
      | valueError m => exact ToolResult.noConfusion (Except.ok.inj hr)
      | typeError m => exact Except.noConfusion hr
      | attributeError m => exact Except.noConfusion hr
      | otherError m => exact Except.noConfusion hr
  | ok path =>
  simp only [hren] at hr
  refine ⟨path_params, query0, body, path, rfl, rfl, rfl, hren, ?_⟩
  have hx := Except.ok.inj hr
  by_cases hdq : (¬ defn.allowed_query_keys.isEmpty = true ∧
      ¬ (((aliasCurrentWeather query0).map Prod.fst).filter
        (fun k => k ∉ defn.allowed_query_keys)).isEmpty = true)
  · rw [if_pos hdq] at hx
    exact absurd hx (by simp)
  · rw [if_neg hdq] at hx
    rw [hall] at hx
    rw [if_neg (by simp)] at hx
    obtain ⟨t2, ht2⟩ := httpToolFinish_attempted fuel defn path
      (aliasCurrentWeather query0) body [] net
    rw [ht2] at hx
    exact (ToolResult.attempted.inj hx.symm).1

/-- C4: for a compiled HTTP tool whose definition has an empty
`headers_dynamic_allowlist`, all dynamic headers are dropped:
(1) for any two caller-supplied `headers_json` values (and even different
transport behaviours), any two invocations that reach the network produce
identical outgoing requests; (2) every outgoing request's headers are
exactly the static headers with the default `Content-Type` added when
absent (a body is always sent). -/
theorem empty_header_allowlist_static_only (fuel : Nat)
    (defn : HttpToolDefinition) (hall : defn.headers_dynamic_allowlist = []) :
    (∀ (p q b h1 h2 : PyVal) (n1 n2 : NetOracle) (r1 r2 : HttpRequest)
        (t1 t2 : PyStr),
      httpToolRun fuel defn p q b h1 n1 = .ok (.attempted r1 t1) →
      httpToolRun fuel defn p q b h2 n2 = .ok (.attempted r2 t2) →
      r1 = r2) ∧
    (∀ (p q b h : PyVal) (n : NetOracle) (r : HttpRequest) (t : PyStr),
      httpToolRun fuel defn p q b h n = .ok (.attempted r t) →
      r.headers = dictSetDefault
        (defn.headers_static.map (fun x => (x.1, PyVal.vstr x.2)))
        (pys "Content-Type") (.vstr (pys "application/json"))) := by
  constructor
  · intro p q b h1 h2 n1 n2 r1 r2 t1 t2 hr1 hr2
    obtain ⟨pp1, q1, b1, path1, hp1, hq1, hb1, hren1, he1⟩ :=
      run_attempted_req fuel defn hall p q b h1 n1 r1 t1 hr1
    obtain ⟨pp2, q2, b2, path2, hp2, hq2, hb2, hren2, he2⟩ :=
      run_attempted_req fuel defn hall p q b h2 n2 r2 t2 hr2
    rw [hp1] at hp2
    rw [hq1] at hq2
    rw [hb1] at hb2
    obtain rfl := Except.ok.inj hp2
    obtain rfl := Except.ok.inj hq2
    obtain rfl := Except.ok.inj hb2
    rw [hren1] at hren2
    obtain rfl := Except.ok.inj hren2
    rw [he1, he2]
  · intro p q b h n r t hr
    obtain ⟨pp, q0, bd, path, hp, hq, hb, hren, he⟩ :=
      run_attempted_req fuel defn hall p q b h n r t hr
    rw [he]
    unfold mkHttpRequest
    simp [dictUpdate]

/-- C4 witness: `exampleHttpDefn` has an empty dynamic-header allow-list;
a call carrying an `X-Evil` dynamic header produces a request whose
headers are exactly the defaulted `Content-Type` (the static headers are
empty), as given by applying the theorem at that concrete run. -/
theorem empty_header_allowlist_static_only_witness :
    exampleHttpDefn.headers_dynamic_allowlist = [] ∧
    httpToolRun 10 exampleHttpDefn .vnone .vnone .vnone
        (.vdict [(pys "X-Evil", .vstr (pys "1"))]) netOk200
      = .ok (.attempted exampleRequest (pys "HTTP 200: \x7b\x7d")) ∧
    exampleRequest.headers = [(pys "Content-Type", .vstr (pys "application/json"))] :=
  ⟨rfl, rfl, by
    have hh := (empty_header_allowlist_static_only 10 exampleHttpDefn rfl).2
      .vnone .vnone .vnone (.vdict [(pys "X-Evil", .vstr (pys "1"))]) netOk200
      exampleRequest (pys "HTTP 200: \x7b\x7d") rfl
    simpa using hh⟩

/-! ## C3 — disallowed query keys and the `current_weather` alias -/

/-- C3 counterexample: with `allowed_query_keys = ["current"]`, a query
containing the key `current_weather` — which is outside the allow-list —
does NOT fail with a disallowed-key error: the alias in `_http_tool`
silently renames it to `current` and the call performs a network request. -/
theorem disallowed_query_alias_counterexample :
    (pys "current_weather") ∉ exampleWeatherDefn.allowed_query_keys ∧
    exampleWeatherDefn.allowed_query_keys ≠ [] ∧
    httpToolRun 10 exampleWeatherDefn .vnone
        (.vdict [(pys "current_weather", .vstr (pys "x"))]) .vnone .vnone netOk200
      = .ok (.attempted exampleWeatherRequest (pys "HTTP 200: \x7b\x7d")) :=
  ⟨by decide, by decide, rfl⟩

/-- C3 amended: for every compiled HTTP tool with a non-empty
`allowed_query_keys` list, and every invocation whose four arguments parse
and whose path renders, if the query contains a key outside the allow-list
AFTER the `current_weather → current` compatibility aliasing, the call
returns the disallowed-key error text and performs no network request
(`.errText` results are returned before any network I/O). -/
theorem disallowed_query_rejected (fuel : Nat) (defn : HttpToolDefinition)
    (p q b h : PyVal) (net : NetOracle)
    (path_params query0 headers body : PyDict) (path : PyStr)
    (hp : parseObjectArg false (pys "path_params_json") p = .ok path_params)
    (hq : parseObjectArg true (pys "query_json") q = .ok query0)
    (hh : parseObjectArg false (pys "headers_json") h = .ok headers)
    (hb : parseObjectArg false (pys "body_json") b = .ok body)
    (hren : renderPath fuel defn.path_template path_params = .ok path)
    (hne : ¬ defn.allowed_query_keys.isEmpty = true)
    (hbad : ¬ (((aliasCurrentWeather query0).map Prod.fst).filter
        (fun k => k ∉ defn.allowed_query_keys)).isEmpty = true) :
    httpToolRun fuel defn p q b h net
      = .ok (.errText (pys "Disallowed query keys: " ++
          pyReprStrList (((aliasCurrentWeather query0).map Prod.fst).filter
            (fun k => k ∉ defn.allowed_query_keys)))) := by
  unfold httpToolRun
  simp only [hp, hq, hh, hb, hren]
  rw [if_pos ⟨hne, hbad⟩]

/-- C3 witness: the spec's own example — `allowed_query_keys = ["q"]` and
`query_json = "\x7b\"q\":\"1\",\"x\":\"2\"\x7d"` — fails with the
disallowed-key error naming `x`, with every hypothesis discharged at the
concrete input. -/
theorem disallowed_query_rejected_witness :
    parseObjectArg true (pys "query_json")
        (.vstr (pys "\x7b\"q\":\"1\",\"x\":\"2\"\x7d"))
      = .ok [(pys "q", .vstr (pys "1")), (pys "x", .vstr (pys "2"))] ∧
    httpToolRun 10 exampleQDefn .vnone
        (.vstr (pys "\x7b\"q\":\"1\",\"x\":\"2\"\x7d")) .vnone .vnone netOk200
      = .ok (.errText (pys "Disallowed query keys: " ++ pyReprStrList [pys "x"])) :=
  ⟨rfl, by
    have hth := disallowed_query_rejected 10 exampleQDefn .vnone
      (.vstr (pys "\x7b\"q\":\"1\",\"x\":\"2\"\x7d")) .vnone .vnone netOk200
      [] [(pys "q", .vstr (pys "1")), (pys "x", .vstr (pys "2"))] [] []
      (pys "/") rfl rfl rfl rfl rfl (by decide) (by decide)
    simpa using hth⟩

/-! ## C1 — resolve_profile: degradation to defaults vs. raising -/

theorem parsePresetRef_ok (fuel : Nat) (raw : PyVal) (did : PyStr)
    (h : wfPresetRaw raw = true) :
    ∃ r, parsePresetRef fuel raw did = .ok r := by
  by_cases ht : pyTruthy raw = true
  · cases raw with
    | vdict d2 =>
        have h4 : (!(d2.any fun kv =>
            isDescriptorDict [pys "S", pys "N", pys "BOOL", pys "M"] kv.2)) = true := h
        have h3 : (d2.any fun kv =>
            isDescriptorDict [pys "S", pys "N", pys "BOOL", pys "M"] kv.2) = false := by
          cases hb : (d2.any fun kv =>
              isDescriptorDict [pys "S", pys "N", pys "BOOL", pys "M"] kv.2)
          · rfl
          · rw [hb] at h4
            exact Bool.noConfusion h4
        refine ⟨some ⟨dictGetD d2 (pys "id") (.vstr did),
                      dictGetD d2 (pys "version") .vnone⟩, ?_⟩
        simp only [parsePresetRef, presetDataOf]
        rw [if_pos ht]
        rw [if_neg (by rw [h3]; exact Bool.false_ne_true)]
    | vstr s => simp [wfPresetRaw, ht] at h
    | vint n => simp [wfPresetRaw, ht] at h
    | vfloat s => simp [wfPresetRaw, ht] at h
    | vbool b => simp [wfPresetRaw, ht] at h
    | vnone => simp [wfPresetRaw, ht] at h
    | vlist l => simp [wfPresetRaw, ht] at h
  · refine ⟨none, ?_⟩
    unfold parsePresetRef
    rw [if_neg ht]

theorem parseLimits_ok (fuel : Nat) (pd : PyDict) (h : wfLimits pd = true) :
    ∃ r, parseLimits fuel pd = .ok r := by
  unfold wfLimits at h
  cases hv : dictGetD pd (pys "limits") (.vdict []) with
  | vdict raw =>
      rw [hv] at h
      have h4 : (!(raw.any fun kv =>
          isDescriptorDict [pys "S", pys "N", pys "BOOL"] kv.2)) = true := h
      have h3 : (raw.any fun kv =>
          isDescriptorDict [pys "S", pys "N", pys "BOOL"] kv.2) = false := by
        cases hb : (raw.any fun kv =>
            isDescriptorDict [pys "S", pys "N", pys "BOOL"] kv.2)
        · rfl
        · rw [hb] at h4
          exact Bool.noConfusion h4
      refine ⟨⟨dictGetD raw (pys "max_minutes") .vnone,
               dictGetD raw (pys "max_tool_calls") .vnone,
               dictGetD raw (pys "max_tool_calls_per_minute") .vnone⟩, ?_⟩
      simp only [parseLimits, limitsDataOf, hv]
      rw [if_neg (by rw [h3]; exact Bool.false_ne_true)]
  | vstr s => refine ⟨⟨.vnone, .vnone, .vnone⟩, ?_⟩; simp only [parseLimits, limitsDataOf, hv]; rfl
  | vint n => refine ⟨⟨.vnone, .vnone, .vnone⟩, ?_⟩; simp only [parseLimits, limitsDataOf, hv]; rfl
  | vfloat s => refine ⟨⟨.vnone, .vnone, .vnone⟩, ?_⟩; simp only [parseLimits, limitsDataOf, hv]; rfl
  | vbool b => refine ⟨⟨.vnone, .vnone, .vnone⟩, ?_⟩; simp only [parseLimits, limitsDataOf, hv]; rfl
  | vnone => refine ⟨⟨.vnone, .vnone, .vnone⟩, ?_⟩; simp only [parseLimits, limitsDataOf, hv]; rfl
  | vlist l => refine ⟨⟨.vnone, .vnone, .vnone⟩, ?_⟩; simp only [parseLimits, limitsDataOf, hv]; rfl

theorem wfSection_dict (pd : PyDict) (key : PyStr)
    (h : wfSection pd key = true) :
    ∃ d, sectionDataOf pd key = .vdict d := by
  unfold wfSection at h
  cases hv : sectionDataOf pd key with
  | vdict d => exact ⟨d, rfl⟩
  | vstr s => rw [hv] at h; exact Bool.noConfusion h
  | vint n => rw [hv] at h; exact Bool.noConfusion h
  | vfloat s => rw [hv] at h; exact Bool.noConfusion h
  | vbool b => rw [hv] at h; exact Bool.noConfusion h
  | vnone => rw [hv] at h; exact Bool.noConfusion h
  | vlist l => rw [hv] at h; exact Bool.noConfusion h

theorem buildProfileConfig_isOk (fuel : Nat) (pd : PyDict)
    (h : wellFormedProfileData pd = true) :
    (buildProfileConfig fuel pd).isOk = true := by
  unfold wellFormedProfileData at h
  simp only [Bool.and_eq_true] at h
  obtain ⟨⟨⟨⟨⟨⟨⟨w1, w2⟩, w3⟩, w4⟩, w5⟩, w6⟩, w7⟩, w8⟩ := h
  obtain ⟨r1, e1⟩ := parsePresetRef_ok fuel _ (pys "gpt-5.1") w1
  obtain ⟨r2, e2⟩ := parsePresetRef_ok fuel _ (pys "nova-3") w2
  obtain ⟨r3, e3⟩ := parsePresetRef_ok fuel _ (pys "sonic-3") w3
  obtain ⟨r4, e4⟩ := parsePresetRef_ok fuel _ (pys "amazon.nova-2-sonic-v1:0") w4
  obtain ⟨r5, e5⟩ := parseLimits_ok fuel pd w5
  obtain ⟨d6, e6⟩ := wfSection_dict pd (pys "session_behavior") w6
  obtain ⟨d7, e7⟩ := wfSection_dict pd (pys "room_options") w7
  obtain ⟨d8, e8⟩ := wfSection_dict pd (pys "conn_options") w8
  unfold buildProfileConfig
  rw [e1, e2, e3, e4, e5, e6, e7, e8]
  rfl

/-- **C1 (counterexample)** — `resolve_profile` is not raise-free on
malformed record contents: a profile record whose `session_behavior`
attribute is the string `"[1]"` (valid JSON decoding to a list) passes
every store step, and `_build_profile_config` then calls `.get` on the
decoded list, raising `AttributeError` out of `resolve_profile`
(agent.py wraps the call in `try`/`except`, confirming the raise is
anticipated). -/
theorem resolve_profile_raises_counterexample :
    resolveProfile 9 (some (.vstr (pys "p"))) (some (.vstr (pys "1")))
      .missing .missing
      (.item [(pys "session_behavior", .vdict [(pys "S", .vstr (pys "[1]"))])]) =
    .error (.attributeError (pys "object has no attribute 'get'")) := rfl

/-- **C1 (amended)** — `resolve_profile` degrades to the built-in
default profile on a pointer miss, a version miss, or a missing or
undecodable profile record (store errors included), and returns a
fully-populated `AgentProfileConfig` without raising whenever the
decoded profile data is well formed (preset refs falsy or plain dicts,
limits absent/non-dict/descriptor-free, each JSON-or-dict section
resolving to a dict); for arbitrary malformed record contents it can
raise (see the counterexample). -/
theorem resolve_profile_amended (fuel : Nat) (pid pver : Option PyVal)
    (dp lp pr : StoreResp) :
    (effectiveProfileId pid dp = none →
       resolveProfile fuel pid pver dp lp pr = .ok getDefaultProfile) ∧
    (∀ p, effectiveProfileId pid dp = some p →
       effectiveVersion pver lp = none →
       resolveProfile fuel pid pver dp lp pr = .ok getDefaultProfile) ∧
    (∀ p v, effectiveProfileId pid dp = some p →
       effectiveVersion pver lp = some v →
       fetchProfile fuel pr = none →
       resolveProfile fuel pid pver dp lp pr = .ok getDefaultProfile) ∧
    (∀ p v pd, effectiveProfileId pid dp = some p →
       effectiveVersion pver lp = some v →
       fetchProfile fuel pr = some pd →
       wellFormedProfileData pd = true →
       (resolveProfile fuel pid pver dp lp pr).isOk = true) := by
  refine ⟨?_, ?_, ?_, ?_⟩
  · intro h
    unfold resolveProfile
    rw [h]
  · intro p hp hv
    unfold resolveProfile
    rw [hp, hv]
  · intro p v hp hv hf
    unfold resolveProfile
    rw [hp, hv, hf]
  · intro p v pd hp hv hf hwf
    unfold resolveProfile
    rw [hp, hv, hf]
    exact buildProfileConfig_isOk fuel pd hwf

/-- Closed witness for `resolve_profile_amended`: a concrete well-formed
record run through the fourth conjunct, and a concrete pointer miss run
through the first. -/
theorem resolve_profile_amended_witness :
    (resolveProfile 9 (some (.vstr (pys "p"))) (some (.vstr (pys "1")))
       .missing .missing
       (.item [(pys "mode", .vdict [(pys "S", .vstr (pys "pipeline"))])])).isOk = true ∧
    resolveProfile 9 none none .missing .missing .missing = .ok getDefaultProfile :=
  ⟨(resolve_profile_amended 9 (some (.vstr (pys "p"))) (some (.vstr (pys "1")))
      .missing .missing
      (.item [(pys "mode", .vdict [(pys "S", .vstr (pys "pipeline"))])])).2.2.2
      (.vstr (pys "p")) (.vstr (pys "1")) [(pys "mode", .vstr (pys "pipeline"))]
      rfl rfl rfl rfl,
   (resolve_profile_amended 9 none none .missing .missing .missing).1 rfl⟩
